import Mathlib

/-!
Shallow embedding of `generate_pakistan_sales_data.py` (class
`PakistanSalesDataGenerator`) and proofs about the entity-generation and
referential-integrity logic of the synthetic-data generator.

Modelling conventions:
* Python floats and decimal literals are modelled as exact rationals (`ℚ`);
  `round(x, 2)` is modelled by `round2` below.
* Calls to the ambient random source are modelled by explicit "draw"
  parameters: `random.choice(lst)` over a constant list becomes an index draw
  consumed through `pick`; choices whose chosen element feeds a foreign key
  (customer / store / employee / product sampling) are modelled as element
  draws, constrained to lie in the candidate list by a `...DrawsValid`
  predicate, which also records the numeric ranges of `random.randint` /
  `random.uniform` draws.
* `datetime.now().date()` is modelled by an explicit `today : ℤ` parameter;
  dates are day numbers (`ℤ`), except a date of birth which is kept as the
  `(year, month, day)` triple the source constructs.
* Code that can raise (`random.choice` on a possibly-empty list) is modelled
  with `Option`: `none` is the unhandled empty-selection condition.
-/

namespace PakSales

/-- Models Python `round(x, 2)` on the exact rational value. -/
def round2 (x : ℚ) : ℚ := ((round (100 * x) : ℤ) : ℚ) / 100

/-- Models `random.choice(l)` on a constant non-empty list: the pre-drawn
index `i` is reduced mod the list length. -/
def pick {α : Type} (l : List α) (dflt : α) (i : ℕ) : α :=
  l.getD (i % l.length) dflt

/-- Whether `pat` is an initial segment of `s` (on character lists). -/
def leadMatch : List Char → List Char → Bool
  | [], _ => true
  | _ :: _, [] => false
  | p :: ps, c :: cs => p == c && leadMatch ps cs

/-- Whether `pat` occurs as a contiguous run inside `s` (on character lists). -/
def runSearch (pat : List Char) : List Char → Bool
  | [] => leadMatch pat []
  | c :: cs => leadMatch pat (c :: cs) || runSearch pat cs

/-- Models the Python substring test `pat in s` (used for
`'Manager' in job_title` and `'Supervisor' in job_title`). -/
def strContains (s pat : String) : Bool :=
  runSearch pat.data s.data

/-- Models Python `str.lower()`. -/
def strLower (s : String) : String := ⟨s.data.map Char.toLower⟩

/-- Replacement on character lists, structurally recursive on a fuel bound
that always suffices (each step consumes at least one character). -/
def replaceRun (pat rep : List Char) : ℕ → List Char → List Char
  | _, [] => []
  | 0, l => l
  | fuel + 1, c :: cs =>
    match pat with
    | [] => c :: cs
    | p :: ps =>
      if p == c && leadMatch ps cs then rep ++ replaceRun (p :: ps) rep fuel (cs.drop ps.length)
      else c :: replaceRun (p :: ps) rep fuel cs

/-- Models Python `str.replace(pat, rep)` (used with a non-empty pattern). -/
def strReplace (s pat rep : String) : String :=
  ⟨replaceRun pat.data rep.data s.data.length s.data⟩

/-! ### Constant tables from `PakistanSalesDataGenerator.__init__` -/

def provinces : List (String × List String) :=
  [("Punjab", ["Lahore", "Faisalabad", "Rawalpindi", "Multan", "Gujranwala", "Sialkot", "Bahawalpur", "Sargodha"]),
   ("Sindh", ["Karachi", "Hyderabad", "Sukkur", "Larkana", "Nawabshah", "Mirpur Khas", "Jacobabad"]),
   ("Khyber Pakhtunkhwa", ["Peshawar", "Mardan", "Abbottabad", "Swat", "Nowshera", "Charsadda", "Mansehra"]),
   ("Balochistan", ["Quetta", "Turbat", "Khuzdar", "Chaman", "Zhob", "Gwadar"]),
   ("Gilgit-Baltistan", ["Gilgit", "Skardu", "Chilas", "Astore"]),
   ("Azad Kashmir", ["Muzaffarabad", "Mirpur", "Kotli", "Rawalakot"])]

def first_names : List String :=
  ["Ahmed", "Ali", "Hassan", "Hussein", "Muhammad", "Usman", "Umar", "Bilal", "Hamza", "Zain",
   "Fatima", "Aisha", "Maryam", "Zara", "Hania", "Sana", "Ayesha", "Noor", "Mariam", "Zoya",
   "Abdullah", "Ibrahim", "Yusuf", "Haris", "Rayyan", "Arham", "Zayan", "Ayan", "Amaan", "Shahzad",
   "Amina", "Khadija", "Sumaya", "Hafsa", "Jannat", "Mahnoor", "Alina", "Sadia", "Nida", "Rabia"]

def last_names : List String :=
  ["Khan", "Ali", "Hussain", "Ahmed", "Malik", "Raza", "Hassan", "Abbas", "Rizvi", "Zaidi",
   "Shah", "Qureshi", "Hashmi", "Jafri", "Naqvi", "Rizwan", "Siddiqui", "Farooq", "Khalid", "Saleem",
   "Rehman", "Iqbal", "Akhtar", "Nadeem", "Rashid", "Tariq", "Waseem", "Naeem", "Saeed", "Zahid"]

/-- `self.product_categories`: key, category name, brand list. -/
def product_categories : List (ℕ × String × List String) :=
  [(1, "Electronics", ["Samsung", "Huawei", "Oppo", "Vivo", "Infinix", "Tecno", "QMobile"]),
   (2, "Textiles", ["Gul Ahmed", "Khaadi", "Alkaram", "Chen One", "Bonanza", "Sapphire"]),
   (3, "Food & Beverages", ["Nestle", "Unilever", "Engro", "Shan Foods", "National Foods", "Mitchells"]),
   (4, "Automotive", ["Suzuki", "Toyota", "Honda", "Daihatsu", "Nissan", "Mitsubishi"]),
   (5, "Home & Garden", ["IKEA", "Habitt", "Interwood", "Chenab", "Furniture Mall"]),
   (6, "Beauty & Personal Care", ["LOreal", "Garnier", "Fair & Lovely", "Clean & Clear", "Ponds"]),
   (7, "Sports & Fitness", ["Nike", "Adidas", "Puma", "Reebok", "Under Armour"]),
   (8, "Books & Stationery", ["Oxford", "Pelikan", "Dollar", "Pilot", "Staedtler"])]

def store_types : List String :=
  ["Retail", "Supermarket", "Department Store", "Specialty Store", "Outlet", "Mall"]

def payment_methods : List String :=
  ["Cash", "Credit Card", "Debit Card", "Mobile Banking", "Bank Transfer", "EasyPaisa", "JazzCash"]

def shipping_methods : List String :=
  ["Standard", "Express", "Same Day", "Pickup", "Courier"]

def customer_segments : List String := ["Premium", "Regular", "Occasional", "VIP"]

def education_levels : List String :=
  ["Primary", "Secondary", "Higher Secondary", "Bachelor", "Master", "PhD", "Other"]

def marital_statuses : List String := ["Single", "Married", "Divorced", "Widowed"]

def genders : List String := ["M", "F", "Other"]

/-- Local literal list in `generate_employees`. -/
def job_titles : List String :=
  ["Sales Associate", "Cashier", "Manager", "Supervisor", "Customer Service", "Stock Clerk"]

/-- Local literal list in `generate_employees`. -/
def departments : List String :=
  ["Sales", "Customer Service", "Operations", "Management", "Inventory"]

/-! ### Entity records (the dicts appended by each generator) -/

structure Customer where
  CUSTOMER_ID : ℕ
  FIRST_NAME : String
  LAST_NAME : String
  EMAIL : String
  PHONE : String
  DATE_OF_BIRTH : ℕ × ℕ × ℕ
  GENDER : String
  MARITAL_STATUS : String
  EDUCATION_LEVEL : String
  ANNUAL_INCOME : ℕ
  CUSTOMER_SEGMENT : String
  REGISTRATION_DATE : ℤ
  IS_ACTIVE : Bool
  deriving Inhabited, DecidableEq

structure Address where
  ADDRESS_ID : ℕ
  CUSTOMER_ID : ℕ
  ADDRESS_TYPE : String
  STREET_ADDRESS : String
  CITY : String
  PROVINCE : String
  POSTAL_CODE : String
  COUNTRY : String
  IS_DEFAULT : Bool
  deriving Inhabited, DecidableEq

structure Category where
  CATEGORY_ID : ℕ
  CATEGORY_NAME : String
  DESCRIPTION : String
  PARENT_CATEGORY_ID : Option ℕ
  IS_ACTIVE : Bool
  deriving Inhabited, DecidableEq

structure Product where
  PRODUCT_ID : ℕ
  PRODUCT_NAME : String
  CATEGORY_ID : ℕ
  BRAND : String
  MODEL : String
  DESCRIPTION : String
  UNIT_COST : ℚ
  UNIT_PRICE : ℚ
  MSRP : ℚ
  WEIGHT_KG : ℚ
  DIMENSIONS_CM : String
  IS_ACTIVE : Bool
  deriving Inhabited, DecidableEq

structure Store where
  STORE_ID : ℕ
  STORE_NAME : String
  STORE_CODE : String
  ADDRESS : String
  CITY : String
  PROVINCE : String
  POSTAL_CODE : String
  PHONE : String
  EMAIL : String
  MANAGER_ID : Option ℕ
  STORE_TYPE : String
  IS_ACTIVE : Bool
  OPENING_DATE : ℤ
  deriving Inhabited, DecidableEq

structure Employee where
  EMPLOYEE_ID : ℕ
  FIRST_NAME : String
  LAST_NAME : String
  EMAIL : String
  PHONE : String
  HIRE_DATE : ℤ
  JOB_TITLE : String
  DEPARTMENT : String
  STORE_ID : ℕ
  MANAGER_ID : Option ℕ
  SALARY : ℕ
  IS_ACTIVE : Bool
  deriving Inhabited, DecidableEq

structure Order where
  ORDER_ID : ℕ
  CUSTOMER_ID : ℕ
  STORE_ID : ℕ
  EMPLOYEE_ID : ℕ
  ORDER_DATE : ℤ
  REQUIRED_DATE : ℤ
  SHIP_DATE : Option ℤ
  ORDER_STATUS : String
  SHIP_METHOD : String
  SHIPPING_ADDRESS_ID : Option ℕ
  TOTAL_AMOUNT : ℚ
  TAX_AMOUNT : ℚ
  SHIPPING_COST : ℚ
  DISCOUNT_AMOUNT : ℚ
  FINAL_AMOUNT : ℚ
  PAYMENT_METHOD : String
  PAYMENT_STATUS : String
  NOTES : String
  deriving Inhabited, DecidableEq

structure OrderDetail where
  ORDER_ID : ℕ
  PRODUCT_ID : ℕ
  QUANTITY_ORDERED : ℕ
  UNIT_PRICE : ℚ
  DISCOUNT_PERCENT : ℚ
  TOTAL_LINE_AMOUNT : ℚ
  deriving Inhabited, DecidableEq

structure SalesRow where
  ORDER_ID : ℕ
  CUSTOMER_ID : ℕ
  PRODUCT_ID : ℕ
  STORE_ID : ℕ
  EMPLOYEE_ID : ℕ
  ORDER_DATE : ℤ
  SHIP_DATE : Option ℤ
  QUANTITY_ORDERED : ℕ
  UNIT_PRICE : ℚ
  DISCOUNT_PERCENT : ℚ
  TOTAL_AMOUNT : ℚ
  PAYMENT_METHOD : String
  ORDER_STATUS : String
  SHIP_METHOD : String
  deriving Inhabited, DecidableEq

/-! ### Draw records: one field per call to the random source -/

/-- Draws consumed by one iteration of the `generate_customers` loop. -/
structure CustomerDraws where
  firstIdx : ℕ
  lastIdx : ℕ
  domainIdx : ℕ
  phoneA : ℕ
  phoneB : ℕ
  birthYear : ℕ
  birthMonth : ℕ
  birthDay : ℕ
  regOffset : ℕ
  segIdx : ℕ
  income : ℕ
  genderIdx : ℕ
  maritalIdx : ℕ
  eduIdx : ℕ
  activeIdx : ℕ
  deriving Inhabited, DecidableEq

/-- Numeric ranges of the draws in one `generate_customers` iteration. -/
def CustomerDrawsValid (d : CustomerDraws) : Prop :=
  300 ≤ d.phoneA ∧ d.phoneA ≤ 349 ∧ 1000000 ≤ d.phoneB ∧ d.phoneB ≤ 9999999 ∧
  1944 ≤ d.birthYear ∧ d.birthYear ≤ 2006 ∧
  1 ≤ d.birthMonth ∧ d.birthMonth ≤ 12 ∧
  1 ≤ d.birthDay ∧ d.birthDay ≤ 28 ∧
  d.regOffset ≤ 1825 ∧
  -- income band conditioned on the drawn segment, mirroring the if/elif chain
  (let segment := pick customer_segments "" d.segIdx
   if segment = "Premium" then 1500000 ≤ d.income ∧ d.income ≤ 5000000
   else if segment = "VIP" then 5000000 ≤ d.income ∧ d.income ≤ 15000000
   else if segment = "Regular" then 500000 ≤ d.income ∧ d.income ≤ 1500000
   else 200000 ≤ d.income ∧ d.income ≤ 800000)

instance (d : CustomerDraws) : Decidable (CustomerDrawsValid d) := by
  unfold CustomerDrawsValid; infer_instance

/-- One iteration of the `generate_customers` loop (`i` is the 1-based id). -/
def mkCustomer (today : ℤ) (i : ℕ) (d : CustomerDraws) : Customer :=
  let first_name := pick first_names "" d.firstIdx
  let last_name := pick last_names "" d.lastIdx
  let email := strLower first_name ++ "." ++ strLower last_name ++ "@" ++
    pick ["gmail.com", "yahoo.com", "hotmail.com", "outlook.com"] "" d.domainIdx
  let phone := "+92-" ++ toString d.phoneA ++ "-" ++ toString d.phoneB
  let segment := pick customer_segments "" d.segIdx
  { CUSTOMER_ID := i
    FIRST_NAME := first_name
    LAST_NAME := last_name
    EMAIL := email
    PHONE := phone
    DATE_OF_BIRTH := (d.birthYear, d.birthMonth, d.birthDay)
    GENDER := pick genders "" d.genderIdx
    MARITAL_STATUS := pick marital_statuses "" d.maritalIdx
    EDUCATION_LEVEL := pick education_levels "" d.eduIdx
    ANNUAL_INCOME := d.income
    CUSTOMER_SEGMENT := segment
    REGISTRATION_DATE := today - d.regOffset
    IS_ACTIVE := pick [true, true, true, false] true d.activeIdx }

/-- `generate_customers(num)`: the loop `for i in range(1, num + 1)`. -/
def generateCustomers (today : ℤ) (num : ℕ) (draws : List CustomerDraws) :
    List Customer :=
  (List.range num).map (fun j => mkCustomer today (j + 1) (draws.getD j default))

/-- Draws for one address within `generate_customer_addresses`. -/
structure AddrItemDraws where
  provIdx : ℕ
  cityIdx : ℕ
  streetNum1 : ℕ
  blockIdx : ℕ
  streetNum2 : ℕ
  stNumIdx : ℕ
  stNameIdx : ℕ
  postal : ℕ
  deriving Inhabited, DecidableEq

/-- Draws for one customer in `generate_customer_addresses`:
`num_addresses = random.choices([1, 2], weights=[0.8, 0.2])[0]` plus the
per-address draws. -/
structure AddressDraws where
  numAddresses : ℕ
  items : List AddrItemDraws
  deriving Inhabited, DecidableEq

def street_names : List String :=
  ["Main Boulevard", "Park Road", "Mall Road", "College Road", "University Road",
   "Industrial Area", "Defence Housing", "Gulberg", "Model Town", "Johar Town",
   "Bahria Town", "DHA", "Clifton", "Saddar", "Cantt"]

/-- The body of the inner loop of `generate_customer_addresses`
(`i` is the loop counter, `addr_id` the running address id). -/
def mkAddress (addr_id : ℕ) (c : Customer) (i : ℕ) (d : AddrItemDraws) : Address :=
  let pe := pick provinces ("", []) d.provIdx
  let province := pe.1
  let city := pick pe.2 "" d.cityIdx
  let street_numbers := [toString d.streetNum1,
    "Block " ++ pick ["A", "B", "C", "D", "E"] "" d.blockIdx,
    "House " ++ toString d.streetNum2]
  let street_address := pick street_numbers "" d.stNumIdx ++ " " ++
    pick street_names "" d.stNameIdx
  { ADDRESS_ID := addr_id
    CUSTOMER_ID := c.CUSTOMER_ID
    ADDRESS_TYPE := if i = 0 then "Primary" else "Secondary"
    STREET_ADDRESS := street_address
    CITY := city
    PROVINCE := province
    POSTAL_CODE := toString d.postal
    COUNTRY := "Pakistan"
    IS_DEFAULT := i == 0 }

/-- The addresses emitted for one customer, with the running id starting at
`start`. -/
def addrBlock (c : Customer) (d : AddressDraws) (start : ℕ) : List Address :=
  (List.range d.numAddresses).map
    (fun i => mkAddress (start + i) c i (d.items.getD i default))

/-- The outer loop of `generate_customer_addresses`, carrying the running
`address_id` counter. -/
def genAddrAux : List Customer → List AddressDraws → ℕ → List Address
  | [], _, _ => []
  | c :: rest, draws, addr_id =>
    let d := draws.headD default
    addrBlock c d addr_id ++ genAddrAux rest draws.tail (addr_id + d.numAddresses)

/-- `generate_customer_addresses(customers)`: `address_id` starts at 1. -/
def generateCustomerAddresses (customers : List Customer)
    (draws : List AddressDraws) : List Address :=
  genAddrAux customers draws 1

/-- `generate_product_categories()`: fixed enumeration, no randomness. -/
def generateProductCategories : List Category :=
  product_categories.map (fun e =>
    { CATEGORY_ID := e.1
      CATEGORY_NAME := e.2.1
      DESCRIPTION := "Products in " ++ e.2.1 ++ " category"
      PARENT_CATEGORY_ID := none
      IS_ACTIVE := true })

/-- Draws consumed by one iteration of the `generate_products` loop. -/
structure ProductDraws where
  catIdx : ℕ
  brandIdx : ℕ
  nameIdx : ℕ
  nameNum : ℕ
  base : ℕ
  costFrac : ℚ
  msrpFrac : ℚ
  weight : ℚ
  dim1 : ℕ
  dim2 : ℕ
  dim3 : ℕ
  modelNum : ℕ
  activeIdx : ℕ
  deriving Inhabited, DecidableEq

/-- Numeric ranges of the draws in one `generate_products` iteration:
`base_price = randint(500, 50000)`, `unit_cost = base * uniform(0.6, 0.8)`,
`msrp = base * uniform(1.1, 1.3)`, weight branch by category. -/
def ProductDrawsValid (d : ProductDraws) : Prop :=
  500 ≤ d.base ∧ d.base ≤ 50000 ∧
  3 / 5 ≤ d.costFrac ∧ d.costFrac ≤ 4 / 5 ∧
  11 / 10 ≤ d.msrpFrac ∧ d.msrpFrac ≤ 13 / 10 ∧
  (let category_id := (pick product_categories (0, "", []) d.catIdx).1
   if category_id = 3 ∨ category_id = 7 ∨ category_id = 8
   then 1 / 100 ≤ d.weight ∧ d.weight ≤ 2
   else 1 / 10 ≤ d.weight ∧ d.weight ≤ 10) ∧
  1 ≤ d.nameNum ∧ d.nameNum ≤ 20 ∧
  10 ≤ d.dim1 ∧ d.dim1 ≤ 100 ∧ 10 ≤ d.dim2 ∧ d.dim2 ≤ 100 ∧
  1 ≤ d.dim3 ∧ d.dim3 ≤ 50 ∧ 1000 ≤ d.modelNum ∧ d.modelNum ≤ 9999

instance (d : ProductDraws) : Decidable (ProductDrawsValid d) := by
  unfold ProductDrawsValid; infer_instance

/-- One iteration of the `generate_products` loop (`i` is the 1-based id). -/
def mkProduct (i : ℕ) (d : ProductDraws) : Product :=
  let catEntry := pick product_categories (0, "", []) d.catIdx
  let category_id := catEntry.1
  let brand := pick catEntry.2.2 "" d.brandIdx
  let product_name :=
    if category_id = 1 then
      brand ++ " " ++
        pick ["Smartphone", "Laptop", "Tablet", "TV", "Headphones", "Camera", "Speaker", "Charger"]
          "" d.nameIdx ++ " " ++ toString d.nameNum
    else if category_id = 2 then
      brand ++ " " ++
        pick ["Shirt", "Pants", "Dress", "Suit", "Kurta", "Shalwar", "Dupatta", "Scarf"]
          "" d.nameIdx
    else if category_id = 3 then
      brand ++ " " ++
        pick ["Rice", "Oil", "Tea", "Biscuits", "Chocolate", "Juice", "Milk", "Bread"]
          "" d.nameIdx
    else brand ++ " Product " ++ toString i
  { PRODUCT_ID := i
    PRODUCT_NAME := product_name
    CATEGORY_ID := category_id
    BRAND := brand
    MODEL := "Model-" ++ toString d.modelNum
    DESCRIPTION := "High quality " ++ strLower product_name ++ " from " ++ brand
    UNIT_COST := round2 ((d.base : ℚ) * d.costFrac)
    UNIT_PRICE := round2 (d.base : ℚ)
    MSRP := round2 ((d.base : ℚ) * d.msrpFrac)
    WEIGHT_KG := round2 d.weight
    DIMENSIONS_CM := toString d.dim1 ++ "x" ++ toString d.dim2 ++ "x" ++ toString d.dim3 ++ " cm"
    IS_ACTIVE := pick [true, true, true, false] true d.activeIdx }

/-- `generate_products(num)`: the loop `for i in range(1, num + 1)`. -/
def generateProducts (num : ℕ) (draws : List ProductDraws) : List Product :=
  (List.range num).map (fun j => mkProduct (j + 1) (draws.getD j default))

/-- Draws consumed by one iteration of the `generate_stores` loop. -/
structure StoreDraws where
  provIdx : ℕ
  cityIdx : ℕ
  nameAIdx : ℕ
  nameBIdx : ℕ
  addrNum : ℕ
  addrNameIdx : ℕ
  phoneA : ℕ
  phoneB : ℕ
  postal : ℕ
  openOffset : ℕ
  typeIdx : ℕ
  activeIdx : ℕ
  deriving Inhabited, DecidableEq

/-- Zero-padding of `f"ST{i:03d}"`. -/
def pad3 (i : ℕ) : String :=
  if i < 10 then "00" ++ toString i
  else if i < 100 then "0" ++ toString i
  else toString i

/-- One iteration of the `generate_stores` loop (`i` is the 1-based id). -/
def mkStore (today : ℤ) (i : ℕ) (d : StoreDraws) : Store :=
  let pe := pick provinces ("", []) d.provIdx
  let store_name := pick ["Mega", "Super", "Prime", "Elite", "Premium", "Express"] "" d.nameAIdx
    ++ " " ++ pick ["Store", "Mart", "Center", "Plaza", "Mall"] "" d.nameBIdx
    ++ " " ++ toString i
  { STORE_ID := i
    STORE_NAME := store_name
    STORE_CODE := "ST" ++ pad3 i
    ADDRESS := toString d.addrNum ++ " " ++
      pick ["Main Road", "Commercial Area", "Market Street", "Shopping District"] "" d.addrNameIdx
    CITY := pick pe.2 "" d.cityIdx
    PROVINCE := pe.1
    POSTAL_CODE := toString d.postal
    PHONE := "+92-" ++ toString d.phoneA ++ "-" ++ toString d.phoneB
    EMAIL := "info@" ++ strReplace (strLower store_name) " " "" ++ ".com"
    MANAGER_ID := none
    STORE_TYPE := pick store_types "" d.typeIdx
    IS_ACTIVE := pick [true, true, true, false] true d.activeIdx
    OPENING_DATE := today - d.openOffset }

/-- `generate_stores(num)`: the loop `for i in range(1, num + 1)`. -/
def generateStores (today : ℤ) (num : ℕ) (draws : List StoreDraws) : List Store :=
  (List.range num).map (fun j => mkStore today (j + 1) (draws.getD j default))

/-- Draws consumed by one iteration of the `generate_employees` loop.
The store is an element draw (`random.choice(stores)`), constrained to lie
in `stores` by `EmployeeDrawsValid`. -/
structure EmployeeDraws where
  firstIdx : ℕ
  lastIdx : ℕ
  phoneA : ℕ
  phoneB : ℕ
  hireOffset : ℕ
  jobIdx : ℕ
  deptIdx : ℕ
  store : Store
  salary : ℕ
  activeIdx : ℕ
  deriving Inhabited, DecidableEq

def EmployeeDrawsValid (stores : List Store) (d : EmployeeDraws) : Prop :=
  d.store ∈ stores ∧
  300 ≤ d.phoneA ∧ d.phoneA ≤ 349 ∧ 1000000 ≤ d.phoneB ∧ d.phoneB ≤ 9999999 ∧
  d.hireOffset ≤ 1825 ∧
  -- salary band conditioned on the drawn job title, mirroring the if/elif chain
  (let job_title := pick job_titles "" d.jobIdx
   if strContains job_title "Manager" then 80000 ≤ d.salary ∧ d.salary ≤ 150000
   else if strContains job_title "Supervisor" then 60000 ≤ d.salary ∧ d.salary ≤ 100000
   else 30000 ≤ d.salary ∧ d.salary ≤ 60000)

instance (stores : List Store) (d : EmployeeDraws) :
    Decidable (EmployeeDrawsValid stores d) := by
  unfold EmployeeDrawsValid; infer_instance

/-- One iteration of the `generate_employees` loop (`i` is the 1-based id);
`MANAGER_ID` is left `None` for the back-fill pass. -/
def mkEmployee (today : ℤ) (i : ℕ) (d : EmployeeDraws) : Employee :=
  let first_name := pick first_names "" d.firstIdx
  let last_name := pick last_names "" d.lastIdx
  { EMPLOYEE_ID := i
    FIRST_NAME := first_name
    LAST_NAME := last_name
    EMAIL := strLower first_name ++ "." ++ strLower last_name ++ "@company.com"
    PHONE := "+92-" ++ toString d.phoneA ++ "-" ++ toString d.phoneB
    HIRE_DATE := today - d.hireOffset
    JOB_TITLE := pick job_titles "" d.jobIdx
    DEPARTMENT := pick departments "" d.deptIdx
    STORE_ID := d.store.STORE_ID
    MANAGER_ID := none
    SALARY := d.salary
    IS_ACTIVE := pick [true, true, true, false] true d.activeIdx }

/-- The manager back-fill pass: for each non-manager employee, with 30%
probability (`assign` draw) set `MANAGER_ID` to a random manager's id.
`random.choice(managers)` on an empty manager list is the unhandled
empty-selection condition, modelled as `none`. -/
def backfillManagers (managers : List Employee) :
    List Employee → List (Bool × ℕ) → Option (List Employee)
  | [], _ => some []
  | e :: rest, draws =>
    if strContains e.JOB_TITLE "Manager" then
      (backfillManagers managers rest draws).map (fun l => e :: l)
    else
      let d := draws.headD (false, 0)
      if d.1 then
        match managers with
        | [] => none
        | m :: ms =>
          (backfillManagers managers rest draws.tail).map (fun l =>
            { e with MANAGER_ID := some (pick (m :: ms) m d.2).EMPLOYEE_ID } :: l)
      else
        (backfillManagers managers rest draws.tail).map (fun l => e :: l)

/-- The store-manager back-fill pass: set each store's `MANAGER_ID` to a
random manager employee at that store, if one exists. -/
def storeManagerBackfill (employees : List Employee) (stores : List Store)
    (draws : List ℕ) : List Store :=
  stores.enum.map (fun js =>
    let s := js.2
    let store_employees := employees.filter
      (fun e => e.STORE_ID == s.STORE_ID && strContains e.JOB_TITLE "Manager")
    match store_employees with
    | [] => s
    | m :: ms =>
      { s with MANAGER_ID := some (pick (m :: ms) m (draws.getD js.1 0)).EMPLOYEE_ID })

/-- All draws for `generate_employees`: the per-employee loop draws, the
manager back-fill draws (consumed in non-manager order), and the per-store
manager pick draws. -/
structure EmployeesDraws where
  perEmployee : List EmployeeDraws
  backfill : List (Bool × ℕ)
  storeMgr : List ℕ
  deriving Inhabited

/-- The first pass of `generate_employees`: the loop
`for i in range(1, num_employees + 1)`. -/
def employeesPhase1 (today : ℤ) (num : ℕ) (ds : List EmployeeDraws) : List Employee :=
  (List.range num).map (fun j => mkEmployee today (j + 1) (ds.getD j default))

/-- `generate_employees(stores, num)`. With `num ≥ 1` and empty `stores`,
the first loop iteration's `random.choice(stores)` raises (modelled `none`);
the back-fill `random.choice(managers)` can likewise raise. The function
returns the employees together with the (mutated-in-place in Python)
stores list. -/
def generateEmployees (today : ℤ) (stores : List Store) (num : ℕ)
    (draws : EmployeesDraws) : Option (List Employee × List Store) :=
  if num ≠ 0 ∧ stores = [] then none
  else
    match backfillManagers
        ((employeesPhase1 today num draws.perEmployee).filter
          (fun e => strContains e.JOB_TITLE "Manager"))
        (employeesPhase1 today num draws.perEmployee) draws.backfill with
    | none => none
    | some employees =>
      some (employees, storeManagerBackfill employees stores draws.storeMgr)

/-- Draws for one order line in `generate_orders`: the sampled product,
`quantity = randint(1, 5)` and `discount_percent = uniform(0, 0.2)`. -/
structure LineDraw where
  product : Product
  quantity : ℕ
  discount : ℚ
  deriving Inhabited, DecidableEq

/-- Draws consumed by one iteration of the `generate_orders` loop.
Customer, store and employee are element draws (`random.choice`), and
`items` bundles `random.sample(products, ...)` with the per-product draws. -/
structure OrderDraws where
  customer : Customer
  store : Store
  employee : Employee
  dateOffset : ℕ
  reqOffset : ℕ
  shipOffset : ℕ
  shipPresent : Bool
  deliveredIdx : ℕ
  pendingIdx : ℕ
  numProducts : ℕ
  items : List LineDraw
  shippingCost : ℕ
  shipMethodIdx : ℕ
  payMethodIdx : ℕ
  deriving Inhabited, DecidableEq

/-- Validity of the draws of one `generate_orders` iteration relative to the
input tables: the chosen customer/store are from the input lists, the chosen
employee is from the store-filtered candidate list, the product sample is a
duplicate-free selection of `min(num_products, len(products))` products, and
all numeric draws are in their `randint`/`uniform` ranges. -/
def OrderDrawsValid (customers : List Customer) (stores : List Store)
    (employees : List Employee) (products : List Product) (d : OrderDraws) : Prop :=
  d.customer ∈ customers ∧ d.store ∈ stores ∧
  d.employee ∈ employees.filter (fun e => e.STORE_ID == d.store.STORE_ID) ∧
  d.dateOffset ≤ 730 ∧ 1 ≤ d.reqOffset ∧ d.reqOffset ≤ 14 ∧
  1 ≤ d.shipOffset ∧ d.shipOffset ≤ 7 ∧
  1 ≤ d.numProducts ∧ d.numProducts ≤ 5 ∧
  d.items.length = min d.numProducts products.length ∧
  (d.items.map (fun it => it.product)).Nodup ∧
  (∀ it ∈ d.items, it.product ∈ products ∧
    1 ≤ it.quantity ∧ it.quantity ≤ 5 ∧ 0 ≤ it.discount ∧ it.discount ≤ 1 / 5) ∧
  d.shippingCost ≤ 500

instance (customers : List Customer) (stores : List Store)
    (employees : List Employee) (products : List Product) (d : OrderDraws) :
    Decidable (OrderDrawsValid customers stores employees products d) := by
  unfold OrderDrawsValid; infer_instance

/-- One order-detail dict appended in the inner loop of `generate_orders`. -/
def mkDetail (i : ℕ) (it : LineDraw) : OrderDetail :=
  { ORDER_ID := i
    PRODUCT_ID := it.product.PRODUCT_ID
    QUANTITY_ORDERED := it.quantity
    UNIT_PRICE := it.product.UNIT_PRICE
    DISCOUNT_PERCENT := round2 (it.discount * 100)
    TOTAL_LINE_AMOUNT := round2 (it.product.UNIT_PRICE * (it.quantity : ℚ) * (1 - it.discount)) }

/-- The running `total_amount` accumulated over the order lines
(`line_amount = unit_price * quantity * (1 - discount_percent)`). -/
def lineSubtotal (items : List LineDraw) : ℚ :=
  (items.map (fun it => it.product.UNIT_PRICE * (it.quantity : ℚ) * (1 - it.discount))).sum

/-- The running `discount_amount` accumulated over the order lines
(`unit_price * quantity * discount_percent`). -/
def lineDiscountSum (items : List LineDraw) : ℚ :=
  (items.map (fun it => it.product.UNIT_PRICE * (it.quantity : ℚ) * it.discount)).sum

/-- The order dict and its order details, for one iteration of the
`generate_orders` loop once the customer, store and employee selections
have succeeded (`i` is the 1-based order id). -/
def mkOrderCore (today : ℤ) (i : ℕ) (d : OrderDraws) : Order × List OrderDetail :=
  let order_date := today - d.dateOffset
  let required_date := order_date + d.reqOffset
  let ship_date : Option ℤ := if d.shipPresent then some (order_date + d.shipOffset) else none
  let order_status :=
    match ship_date with
    | some sd =>
      if sd < today then pick ["Delivered", "Shipped"] "" d.deliveredIdx else "Shipped"
    | none => pick ["Pending", "Processing"] "" d.pendingIdx
  let total_amount := lineSubtotal d.items
  let discount_amount := lineDiscountSum d.items
  -- tax_amount = total_amount * 0.15 (15% GST)
  let tax_amount := total_amount * (15 / 100)
  let final_amount := total_amount + tax_amount + d.shippingCost - discount_amount
  ({ ORDER_ID := i
     CUSTOMER_ID := d.customer.CUSTOMER_ID
     STORE_ID := d.store.STORE_ID
     EMPLOYEE_ID := d.employee.EMPLOYEE_ID
     ORDER_DATE := order_date
     REQUIRED_DATE := required_date
     SHIP_DATE := ship_date
     ORDER_STATUS := order_status
     SHIP_METHOD := pick shipping_methods "" d.shipMethodIdx
     SHIPPING_ADDRESS_ID := none
     TOTAL_AMOUNT := round2 total_amount
     TAX_AMOUNT := round2 tax_amount
     SHIPPING_COST := (d.shippingCost : ℚ)
     DISCOUNT_AMOUNT := round2 discount_amount
     FINAL_AMOUNT := round2 final_amount
     PAYMENT_METHOD := pick payment_methods "" d.payMethodIdx
     PAYMENT_STATUS :=
       if order_status = "Delivered" ∨ order_status = "Shipped" then "Completed" else "Pending"
     NOTES := "Order placed by " ++ d.customer.FIRST_NAME ++ " " ++ d.customer.LAST_NAME },
   d.items.map (mkDetail i))

/-- One iteration of the `generate_orders` loop. `random.choice` on
`customers`, `stores`, or on the store-filtered employee candidate list
raises when the list is empty (modelled `none`); the employee candidate
filter is `[e for e in employees if e['STORE_ID'] == store['STORE_ID']]`. -/
def mkOrder (today : ℤ) (customers : List Customer) (stores : List Store)
    (employees : List Employee) (i : ℕ) (d : OrderDraws) :
    Option (Order × List OrderDetail) :=
  if customers = [] ∨ stores = [] then none
  else if employees.filter (fun e => e.STORE_ID == d.store.STORE_ID) = [] then none
  else some (mkOrderCore today i d)

/-- The `generate_orders` loop over order ids, failing as soon as one
iteration's selection fails. -/
def genOrdersAux (today : ℤ) (customers : List Customer) (stores : List Store)
    (employees : List Employee) (draws : List OrderDraws) :
    List ℕ → Option (List (Order × List OrderDetail))
  | [] => some []
  | j :: rest =>
    match mkOrder today customers stores employees (j + 1) (draws.getD j default) with
    | none => none
    | some p =>
      match genOrdersAux today customers stores employees draws rest with
      | none => none
      | some ps => some (p :: ps)

/-- `generate_orders(customers, stores, employees, products, num)`:
returns the `orders` list and the concatenated `order_details` list.
(`products` enters only through the sampling recorded in the draws.) -/
def generateOrders (today : ℤ) (customers : List Customer) (stores : List Store)
    (employees : List Employee) (_products : List Product) (num : ℕ)
    (draws : List OrderDraws) : Option (List Order × List OrderDetail) :=
  (genOrdersAux today customers stores employees draws (List.range num)).map
    (fun l => (l.map Prod.fst, (l.map Prod.snd).flatten))

/-- The body of the `sales_data` consolidation loop in `generate_all_data`:
`next((od for od in order_details if od['ORDER_ID'] == order['ORDER_ID']), None)`
takes the FIRST matching order line; the row is appended only when the
customer / product / store / employee lookups all succeed. -/
def salesRowOf (order_details : List OrderDetail) (customers : List Customer)
    (products : List Product) (stores : List Store) (employees : List Employee)
    (order : Order) : Option SalesRow :=
  match order_details.find? (fun od => od.ORDER_ID == order.ORDER_ID) with
  | none => none
  | some order_detail =>
    if (customers.find? (fun c => c.CUSTOMER_ID == order.CUSTOMER_ID)).isSome
        && (products.find? (fun p => p.PRODUCT_ID == order_detail.PRODUCT_ID)).isSome
        && (stores.find? (fun s => s.STORE_ID == order.STORE_ID)).isSome
        && (employees.find? (fun e => e.EMPLOYEE_ID == order.EMPLOYEE_ID)).isSome then
      some { ORDER_ID := order.ORDER_ID
             CUSTOMER_ID := order.CUSTOMER_ID
             PRODUCT_ID := order_detail.PRODUCT_ID
             STORE_ID := order.STORE_ID
             EMPLOYEE_ID := order.EMPLOYEE_ID
             ORDER_DATE := order.ORDER_DATE
             SHIP_DATE := order.SHIP_DATE
             QUANTITY_ORDERED := order_detail.QUANTITY_ORDERED
             UNIT_PRICE := order_detail.UNIT_PRICE
             DISCOUNT_PERCENT := order_detail.DISCOUNT_PERCENT
             TOTAL_AMOUNT := order_detail.TOTAL_LINE_AMOUNT
             PAYMENT_METHOD := order.PAYMENT_METHOD
             ORDER_STATUS := order.ORDER_STATUS
             SHIP_METHOD := order.SHIP_METHOD }
    else none

/-- The consolidated `sales_data` view of `generate_all_data`. -/
def salesRows (orders : List Order) (order_details : List OrderDetail)
    (customers : List Customer) (products : List Product) (stores : List Store)
    (employees : List Employee) : List SalesRow :=
  orders.filterMap (salesRowOf order_details customers products stores employees)

/-- The in-memory result of `generate_all_data`. -/
structure AllData where
  customers : List Customer
  customer_addresses : List Address
  product_categories : List Category
  products : List Product
  stores : List Store
  employees : List Employee
  orders : List Order
  order_details : List OrderDetail
  sales_data : List SalesRow
  deriving Inhabited, DecidableEq

/-- All draws consumed by one `generate_all_data` run. -/
structure AllDraws where
  customers : List CustomerDraws
  addresses : List AddressDraws
  products : List ProductDraws
  stores : List StoreDraws
  employees : EmployeesDraws
  orders : List OrderDraws
  deriving Inhabited

/-- `generate_all_data(num_customers, num_products, num_stores,
num_employees, num_orders)`: top-down generation in dependency order; the
stores list seen by `generate_orders` (and returned) is the one mutated by
the `generate_employees` manager back-fill. -/
def generateAllData (today : ℤ) (num_customers num_products num_stores
    num_employees num_orders : ℕ) (d : AllDraws) : Option AllData :=
  let customers := generateCustomers today num_customers d.customers
  let customer_addresses := generateCustomerAddresses customers d.addresses
  let cats := generateProductCategories
  let products := generateProducts num_products d.products
  let stores := generateStores today num_stores d.stores
  match generateEmployees today stores num_employees d.employees with
  | none => none
  | some (employees, stores2) =>
    match generateOrders today customers stores2 employees products num_orders d.orders with
    | none => none
    | some (orders, order_details) =>
      some { customers := customers
             customer_addresses := customer_addresses
             product_categories := cats
             products := products
             stores := stores2
             employees := employees
             orders := orders
             order_details := order_details
             sales_data := salesRows orders order_details customers products stores2 employees }

/-! ### Arithmetic facts about `round2` -/

lemma abs_round2_sub (x : ℚ) : |round2 x - x| ≤ 1 / 200 := by
  have h := abs_sub_round (100 * x)
  rw [abs_sub_comm] at h
  unfold round2
  have heq : ((round (100 * x) : ℤ) : ℚ) / 100 - x
      = (((round (100 * x) : ℤ) : ℚ) - 100 * x) / 100 := by ring
  rw [heq, abs_div]
  have h100 : |(100 : ℚ)| = 100 := by norm_num
  rw [h100]
  linarith

lemma round2_mono {x y : ℚ} (h : x ≤ y) : round2 x ≤ round2 y := by
  unfold round2
  have hr : round (100 * x) ≤ round (100 * y) := by
    rw [round_eq, round_eq]
    exact Int.floor_le_floor (by linarith)
  have : ((round (100 * x) : ℤ) : ℚ) ≤ ((round (100 * y) : ℤ) : ℚ) := by
    exact_mod_cast hr
  linarith

/-- `round2` is the identity on values that are integer multiples of a cent. -/
lemma round2_eq_self_of_cents (x : ℚ) (n : ℤ) (h : 100 * x = (n : ℚ)) : round2 x = x := by
  unfold round2
  rw [h, round_intCast]
  have : x = (n : ℚ) / 100 := by rw [← h]; ring
  rw [this]

/-! ### Inversion lemmas for the order generator -/

lemma mkOrder_eq_some {today : ℤ} {cs : List Customer} {ss : List Store}
    {es : List Employee} {i : ℕ} {d : OrderDraws} {p : Order × List OrderDetail}
    (h : mkOrder today cs ss es i d = some p) :
    p = mkOrderCore today i d ∧ cs ≠ [] ∧ ss ≠ [] ∧
      es.filter (fun e => e.STORE_ID == d.store.STORE_ID) ≠ [] := by
  unfold mkOrder at h
  by_cases h1 : cs = [] ∨ ss = []
  · rw [if_pos h1] at h; exact absurd h (by simp)
  · rw [if_neg h1] at h
    by_cases h2 : es.filter (fun e => e.STORE_ID == d.store.STORE_ID) = []
    · rw [if_pos h2] at h; exact absurd h (by simp)
    · rw [if_neg h2] at h
      injection h with h
      exact ⟨h.symm, fun hc => h1 (Or.inl hc), fun hs => h1 (Or.inr hs), h2⟩

lemma genOrdersAux_mem {today : ℤ} {cs : List Customer} {ss : List Store}
    {es : List Employee} {draws : List OrderDraws} :
    ∀ {is : List ℕ} {l : List (Order × List OrderDetail)},
      genOrdersAux today cs ss es draws is = some l →
      ∀ {p}, p ∈ l →
        ∃ j ∈ is, mkOrder today cs ss es (j + 1) (draws.getD j default) = some p := by
  intro is
  induction is with
  | nil =>
    intro l h p hp
    unfold genOrdersAux at h
    injection h with h
    subst h
    exact absurd hp (by simp)
  | cons j rest ih =>
    intro l h p hp
    unfold genOrdersAux at h
    cases hm : mkOrder today cs ss es (j + 1) (draws.getD j default) with
    | none => rw [hm] at h; exact absurd h (by simp)
    | some p0 =>
      rw [hm] at h
      cases hr : genOrdersAux today cs ss es draws rest with
      | none => rw [hr] at h; exact absurd h (by simp)
      | some ps =>
        rw [hr] at h
        injection h with h
        subst h
        rcases List.mem_cons.mp hp with hp0 | hps
        · subst hp0; exact ⟨j, List.mem_cons_self _ _, hm⟩
        · obtain ⟨j', hj', he⟩ := ih hr hps
          exact ⟨j', List.mem_cons_of_mem _ hj', he⟩

lemma genOrdersAux_ids {today : ℤ} {cs : List Customer} {ss : List Store}
    {es : List Employee} {draws : List OrderDraws} :
    ∀ {is : List ℕ} {l : List (Order × List OrderDetail)},
      genOrdersAux today cs ss es draws is = some l →
      l.map (fun p => p.1.ORDER_ID) = is.map (· + 1) := by
  intro is
  induction is with
  | nil =>
    intro l h
    unfold genOrdersAux at h
    injection h with h
    subst h
    rfl
  | cons j rest ih =>
    intro l h
    unfold genOrdersAux at h
    cases hm : mkOrder today cs ss es (j + 1) (draws.getD j default) with
    | none => rw [hm] at h; exact absurd h (by simp)
    | some p0 =>
      rw [hm] at h
      cases hr : genOrdersAux today cs ss es draws rest with
      | none => rw [hr] at h; exact absurd h (by simp)
      | some ps =>
        rw [hr] at h
        injection h with h
        subst h
        have hp0 : p0 = mkOrderCore today (j + 1) (draws.getD j default) :=
          (mkOrder_eq_some hm).1
        simp only [List.map_cons, ih hr, hp0]
        rfl

lemma generateOrders_eq_some {today : ℤ} {cs : List Customer} {ss : List Store}
    {es : List Employee} {ps : List Product} {num : ℕ} {draws : List OrderDraws}
    {orders : List Order} {dets : List OrderDetail}
    (h : generateOrders today cs ss es ps num draws = some (orders, dets)) :
    ∃ l, genOrdersAux today cs ss es draws (List.range num) = some l ∧
      orders = l.map Prod.fst ∧ dets = (l.map Prod.snd).flatten := by
  unfold generateOrders at h
  cases hg : genOrdersAux today cs ss es draws (List.range num) with
  | none => rw [hg] at h; exact absurd h (by simp)
  | some l =>
    rw [hg] at h
    simp only [Option.map_some', Option.some.injEq, Prod.mk.injEq] at h
    exact ⟨l, rfl, h.1.symm, h.2.symm⟩

/-- Every order in the output of `generate_orders` is the order built by
`mkOrderCore` from the draw at its index, and its store had a non-empty
employee candidate list. -/
lemma generateOrders_orders_mem {today : ℤ} {cs : List Customer} {ss : List Store}
    {es : List Employee} {ps : List Product} {num : ℕ} {draws : List OrderDraws}
    {orders : List Order} {dets : List OrderDetail}
    (h : generateOrders today cs ss es ps num draws = some (orders, dets))
    {o : Order} (ho : o ∈ orders) :
    ∃ j < num, o = (mkOrderCore today (j + 1) (draws.getD j default)).1 ∧
      es.filter (fun e => e.STORE_ID == (draws.getD j default).store.STORE_ID) ≠ [] := by
  obtain ⟨l, hg, horders, -⟩ := generateOrders_eq_some h
  subst horders
  obtain ⟨p, hp, hpo⟩ := List.mem_map.mp ho
  obtain ⟨j, hj, hm⟩ := genOrdersAux_mem hg hp
  obtain ⟨hcore, -, -, hfilter⟩ := mkOrder_eq_some hm
  exact ⟨j, List.mem_range.mp hj, by rw [← hpo, hcore], hfilter⟩

/-- Every order detail in the output of `generate_orders` is built by
`mkDetail` from one of the line draws of the order at its index. -/
lemma generateOrders_details_mem {today : ℤ} {cs : List Customer} {ss : List Store}
    {es : List Employee} {ps : List Product} {num : ℕ} {draws : List OrderDraws}
    {orders : List Order} {dets : List OrderDetail}
    (h : generateOrders today cs ss es ps num draws = some (orders, dets))
    {det : OrderDetail} (hd : det ∈ dets) :
    ∃ j < num, ∃ it ∈ (draws.getD j default).items, det = mkDetail (j + 1) it := by
  obtain ⟨l, hg, -, hdets⟩ := generateOrders_eq_some h
  subst hdets
  obtain ⟨s, hs, hdet⟩ := List.mem_flatten.mp hd
  obtain ⟨p, hp, hps⟩ := List.mem_map.mp hs
  obtain ⟨j, hj, hm⟩ := genOrdersAux_mem hg hp
  obtain ⟨hcore, -, -, -⟩ := mkOrder_eq_some hm
  have hsnd : p.2 = (draws.getD j default).items.map (mkDetail (j + 1)) := by
    rw [hcore]; rfl
  rw [← hps, hsnd] at hdet
  obtain ⟨it, hit, hdet'⟩ := List.mem_map.mp hdet
  exact ⟨j, List.mem_range.mp hj, it, hit, hdet'.symm⟩

/-! ### Field computations of `mkOrderCore` -/

lemma mkOrderCore_TOTAL (today : ℤ) (i : ℕ) (d : OrderDraws) :
    (mkOrderCore today i d).1.TOTAL_AMOUNT = round2 (lineSubtotal d.items) := rfl

lemma mkOrderCore_TAX (today : ℤ) (i : ℕ) (d : OrderDraws) :
    (mkOrderCore today i d).1.TAX_AMOUNT = round2 (lineSubtotal d.items * (15 / 100)) := rfl

lemma mkOrderCore_DISCOUNT (today : ℤ) (i : ℕ) (d : OrderDraws) :
    (mkOrderCore today i d).1.DISCOUNT_AMOUNT = round2 (lineDiscountSum d.items) := rfl

lemma mkOrderCore_SHIPPING (today : ℤ) (i : ℕ) (d : OrderDraws) :
    (mkOrderCore today i d).1.SHIPPING_COST = (d.shippingCost : ℚ) := rfl

lemma mkOrderCore_FINAL (today : ℤ) (i : ℕ) (d : OrderDraws) :
    (mkOrderCore today i d).1.FINAL_AMOUNT =
      round2 (lineSubtotal d.items + lineSubtotal d.items * (15 / 100)
        + (d.shippingCost : ℚ) - lineDiscountSum d.items) := rfl

/-- The tolerance argument: the stored rounded components reconcile with the
stored rounded final amount to within five half-cents. -/
lemma round2_reconcile (T D S : ℚ) :
    |round2 (T + T * (15 / 100) + S - D)
      - round2 (round2 T - round2 D + round2 (T * (15 / 100)) + S)| ≤ 1 / 40 := by
  set X := T * (15 / 100) with hX
  have hA := abs_round2_sub (T + X + S - D)
  have hT := abs_round2_sub T
  have hD := abs_round2_sub D
  have hXr := abs_round2_sub X
  have hB := abs_round2_sub (round2 T - round2 D + round2 X + S)
  rw [abs_le] at hA hT hD hXr hB
  rw [abs_le]
  constructor <;> linarith [hA.1, hA.2, hT.1, hT.2, hD.1, hD.2, hXr.1, hXr.2, hB.1, hB.2]

/-! ### Concrete fixtures used by witness theorems -/

def wCustDraw : CustomerDraws :=
  { firstIdx := 0, lastIdx := 0, domainIdx := 0, phoneA := 300, phoneB := 1000000,
    birthYear := 1980, birthMonth := 1, birthDay := 1, regOffset := 0, segIdx := 0,
    income := 2000000, genderIdx := 0, maritalIdx := 0, eduIdx := 0, activeIdx := 0 }

def wCust : Customer := mkCustomer 0 1 wCustDraw

def wAddrDraw : AddressDraws := { numAddresses := 1, items := [default] }

def wProdDraw : ProductDraws :=
  { catIdx := 0, brandIdx := 0, nameIdx := 0, nameNum := 1, base := 1000,
    costFrac := 7 / 10, msrpFrac := 6 / 5, weight := 1, dim1 := 10, dim2 := 10,
    dim3 := 1, modelNum := 1000, activeIdx := 0 }

def wProd : Product := mkProduct 1 wProdDraw

def wStoreDraw : StoreDraws :=
  { provIdx := 0, cityIdx := 0, nameAIdx := 0, nameBIdx := 0, addrNum := 1,
    addrNameIdx := 0, phoneA := 300, phoneB := 1000000, postal := 10000,
    openOffset := 0, typeIdx := 0, activeIdx := 0 }

def wStore : Store := mkStore 0 1 wStoreDraw

def wEmpDraw : EmployeeDraws :=
  { firstIdx := 0, lastIdx := 0, phoneA := 300, phoneB := 1000000, hireOffset := 0,
    jobIdx := 0, deptIdx := 0, store := wStore, salary := 40000, activeIdx := 0 }

def wEmp : Employee := mkEmployee 0 1 wEmpDraw

def wEmpsDraws : EmployeesDraws :=
  { perEmployee := [wEmpDraw], backfill := [], storeMgr := [] }

def wOrderDraw : OrderDraws :=
  { customer := wCust, store := wStore, employee := wEmp, dateOffset := 0,
    reqOffset := 1, shipOffset := 1, shipPresent := false, deliveredIdx := 0,
    pendingIdx := 0, numProducts := 1,
    items := [{ product := wProd, quantity := 2, discount := 1 / 10 }],
    shippingCost := 100, shipMethodIdx := 0, payMethodIdx := 0 }

def wOrdersRun : List Order × List OrderDetail :=
  (generateOrders 0 [wCust] [wStore] [wEmp] [wProd] 1 [wOrderDraw]).getD ([], [])

/-! ### C1 -/

/-- C1: for every order produced by `generate_orders`, the stored
`FINAL_AMOUNT` equals `round(TOTAL_AMOUNT - DISCOUNT_AMOUNT + TAX_AMOUNT +
SHIPPING_COST, 2)` within rounding tolerance (at most five half-cent
roundings apart, i.e. `1/40`), where `TOTAL_AMOUNT` is the rounded subtotal
of that order's lines, `TAX_AMOUNT` the rounded 15% fraction of that
subtotal, and `DISCOUNT_AMOUNT` the rounded sum of the per-line discounts. -/
theorem order_final_amount_reconciles
    (today : ℤ) (customers : List Customer) (stores : List Store)
    (employees : List Employee) (products : List Product) (num : ℕ)
    (draws : List OrderDraws) (orders : List Order) (dets : List OrderDetail)
    (h : generateOrders today customers stores employees products num draws
      = some (orders, dets))
    (o : Order) (ho : o ∈ orders) :
    |o.FINAL_AMOUNT
      - round2 (o.TOTAL_AMOUNT - o.DISCOUNT_AMOUNT + o.TAX_AMOUNT + o.SHIPPING_COST)|
      ≤ 1 / 40 := by
  obtain ⟨j, hj, hoeq, -⟩ := generateOrders_orders_mem h ho
  subst hoeq
  rw [mkOrderCore_FINAL, mkOrderCore_TOTAL, mkOrderCore_TAX, mkOrderCore_DISCOUNT,
    mkOrderCore_SHIPPING]
  exact round2_reconcile (lineSubtotal (draws.getD j default).items)
    (lineDiscountSum (draws.getD j default).items)
    ((draws.getD j default).shippingCost : ℚ)

/-- Witness for C1 on a concrete one-order run. -/
theorem order_final_amount_reconciles_witness :
    |(wOrdersRun.1.headD default).FINAL_AMOUNT
      - round2 ((wOrdersRun.1.headD default).TOTAL_AMOUNT
        - (wOrdersRun.1.headD default).DISCOUNT_AMOUNT
        + (wOrdersRun.1.headD default).TAX_AMOUNT
        + (wOrdersRun.1.headD default).SHIPPING_COST)| ≤ 1 / 40 :=
  order_final_amount_reconciles 0 [wCust] [wStore] [wEmp] [wProd] 1 [wOrderDraw]
    wOrdersRun.1 wOrdersRun.2 rfl (wOrdersRun.1.headD default) (List.mem_cons_self _ _)

/-! ### Inversion lemmas for the employee generator -/

/-- The manager back-fill only touches `MANAGER_ID`: every output employee
comes from an input employee with the same store and id. -/
lemma backfillManagers_mem {managers : List Employee} :
    ∀ {input : List Employee} {ds : List (Bool × ℕ)} {out : List Employee},
      backfillManagers managers input ds = some out →
      ∀ {e2}, e2 ∈ out →
        ∃ e1 ∈ input, e2.STORE_ID = e1.STORE_ID ∧ e2.EMPLOYEE_ID = e1.EMPLOYEE_ID := by
  intro input
  induction input with
  | nil =>
    intro ds out h e2 he2
    unfold backfillManagers at h
    injection h with h
    subst h
    exact absurd he2 (by simp)
  | cons e rest ih =>
    intro ds out h e2 he2
    unfold backfillManagers at h
    by_cases hmg : strContains e.JOB_TITLE "Manager" = true
    · rw [if_pos hmg] at h
      obtain ⟨l, hl, hout⟩ := Option.map_eq_some'.mp h
      subst hout
      rcases List.mem_cons.mp he2 with he | he
      · exact ⟨e, List.mem_cons_self _ _, by rw [he], by rw [he]⟩
      · obtain ⟨e1, he1, hfields⟩ := ih hl he
        exact ⟨e1, List.mem_cons_of_mem _ he1, hfields⟩
    · rw [if_neg hmg] at h
      by_cases hd : (ds.headD (false, 0)).1 = true
      · rw [if_pos hd] at h
        cases hms : managers with
        | nil => rw [hms] at h; exact absurd h (by simp)
        | cons m ms =>
          rw [hms] at h
          obtain ⟨l, hl, hout⟩ := Option.map_eq_some'.mp h
          subst hout
          rcases List.mem_cons.mp he2 with he | he
          · exact ⟨e, List.mem_cons_self _ _, by rw [he], by rw [he]⟩
          · obtain ⟨e1, he1, hfields⟩ := by rw [← hms] at hl; exact ih hl he
            exact ⟨e1, List.mem_cons_of_mem _ he1, hfields⟩
      · rw [if_neg hd] at h
        obtain ⟨l, hl, hout⟩ := Option.map_eq_some'.mp h
        subst hout
        rcases List.mem_cons.mp he2 with he | he
        · exact ⟨e, List.mem_cons_self _ _, by rw [he], by rw [he]⟩
        · obtain ⟨e1, he1, hfields⟩ := ih hl he
          exact ⟨e1, List.mem_cons_of_mem _ he1, hfields⟩

lemma generateEmployees_eq_some {today : ℤ} {stores : List Store} {num : ℕ}
    {draws : EmployeesDraws} {emps : List Employee} {stores2 : List Store}
    (h : generateEmployees today stores num draws = some (emps, stores2)) :
    backfillManagers
        ((employeesPhase1 today num draws.perEmployee).filter
          (fun e => strContains e.JOB_TITLE "Manager"))
        (employeesPhase1 today num draws.perEmployee) draws.backfill = some emps ∧
      stores2 = storeManagerBackfill emps stores draws.storeMgr := by
  unfold generateEmployees at h
  by_cases h1 : num ≠ 0 ∧ stores = []
  · rw [if_pos h1] at h; exact absurd h (by simp)
  · rw [if_neg h1] at h
    cases hbf : backfillManagers
        ((employeesPhase1 today num draws.perEmployee).filter
          (fun e => strContains e.JOB_TITLE "Manager"))
        (employeesPhase1 today num draws.perEmployee) draws.backfill with
    | none => rw [hbf] at h; exact absurd h (by simp)
    | some es =>
      rw [hbf] at h
      simp only [Option.some.injEq, Prod.mk.injEq] at h
      constructor
      · rw [h.1]
      · rw [← h.2, h.1]

lemma employeesPhase1_mem {today : ℤ} {num : ℕ} {ds : List EmployeeDraws} {e : Employee}
    (he : e ∈ employeesPhase1 today num ds) :
    ∃ j < num, e = mkEmployee today (j + 1) (ds.getD j default) := by
  obtain ⟨j, hj, hje⟩ := List.mem_map.mp he
  exact ⟨j, List.mem_range.mp hj, hje.symm⟩

/-! ### Field computations of `mkOrderCore` (identification fields) -/

lemma mkOrderCore_STORE (today : ℤ) (i : ℕ) (d : OrderDraws) :
    (mkOrderCore today i d).1.STORE_ID = d.store.STORE_ID := rfl

lemma mkOrderCore_EMPLOYEE (today : ℤ) (i : ℕ) (d : OrderDraws) :
    (mkOrderCore today i d).1.EMPLOYEE_ID = d.employee.EMPLOYEE_ID := rfl

lemma mkOrderCore_SHIPADDR (today : ℤ) (i : ℕ) (d : OrderDraws) :
    (mkOrderCore today i d).1.SHIPPING_ADDRESS_ID = none := rfl

/-! ### C2 -/

/-- C2: every employee produced by `generate_employees` has a `STORE_ID`
referencing a store in the input stores table, and every order produced by
`generate_orders` has an `EMPLOYEE_ID` referencing an employee whose
`STORE_ID` equals the order's `STORE_ID` (employee and store co-selected). -/
theorem employee_store_referential_integrity
    (today : ℤ) (stores : List Store) (numE : ℕ) (edraws : EmployeesDraws)
    (emps : List Employee) (stores2 : List Store)
    (he : generateEmployees today stores numE edraws = some (emps, stores2))
    (hev : ∀ j < numE, EmployeeDrawsValid stores (edraws.perEmployee.getD j default))
    (customers : List Customer) (products : List Product) (numO : ℕ)
    (odraws : List OrderDraws) (orders : List Order) (dets : List OrderDetail)
    (ho : generateOrders today customers stores2 emps products numO odraws
      = some (orders, dets))
    (hov : ∀ j < numO, OrderDrawsValid customers stores2 emps products
      (odraws.getD j default)) :
    (∀ e ∈ emps, ∃ s ∈ stores, e.STORE_ID = s.STORE_ID) ∧
    (∀ o ∈ orders, ∃ e ∈ emps, o.EMPLOYEE_ID = e.EMPLOYEE_ID ∧
      e.STORE_ID = o.STORE_ID) := by
  constructor
  · intro e hemem
    obtain ⟨hbf, -⟩ := generateEmployees_eq_some he
    obtain ⟨e1, he1, hstore, -⟩ := backfillManagers_mem hbf hemem
    obtain ⟨j, hj, he1eq⟩ := employeesPhase1_mem he1
    refine ⟨(edraws.perEmployee.getD j default).store, (hev j hj).1, ?_⟩
    rw [hstore, he1eq]
    rfl
  · intro o homem
    obtain ⟨j, hj, hoeq, -⟩ := generateOrders_orders_mem ho homem
    have hval := hov j hj
    obtain ⟨-, -, hemp, -⟩ := hval
    simp only [List.mem_filter, beq_iff_eq] at hemp
    refine ⟨(odraws.getD j default).employee, hemp.1, ?_, ?_⟩
    · rw [hoeq, mkOrderCore_EMPLOYEE]
    · rw [hoeq, mkOrderCore_STORE]
      exact hemp.2

/-! Concrete employee/order pipeline run for the C2 witness. -/

def wEmpsRun : List Employee × List Store :=
  (generateEmployees 0 [wStore] 1 wEmpsDraws).getD ([], [])

lemma wEmpsDraws_valid :
    ∀ j < 1, EmployeeDrawsValid [wStore] (wEmpsDraws.perEmployee.getD j default) := by
  intro j hj
  interval_cases j
  exact ⟨List.mem_cons_self _ _, by decide⟩

def wC2Run : List Order × List OrderDetail :=
  (generateOrders 0 [wCust] wEmpsRun.2 wEmpsRun.1 [wProd] 1 [wOrderDraw]).getD ([], [])

lemma wOrderDraw_validP :
    ∀ j < 1, OrderDrawsValid [wCust] wEmpsRun.2 wEmpsRun.1 [wProd]
      ([wOrderDraw].getD j default) := by
  intro j hj
  interval_cases j
  rw [show [wOrderDraw].getD 0 default = wOrderDraw from rfl]
  refine ⟨List.mem_cons_self _ _, List.mem_cons_self _ _, List.mem_cons_self _ _,
    by decide, by decide, by decide, by decide, by decide, by decide,
    by decide, rfl, by simp [wOrderDraw], ?_, by decide⟩
  intro it hit
  simp only [wOrderDraw, List.mem_singleton] at hit
  subst hit
  exact ⟨List.mem_cons_self _ _, by decide, by decide, by norm_num, by norm_num⟩

/-- Witness for C2 on a concrete one-store, one-employee, one-order run. -/
theorem employee_store_referential_integrity_witness :
    (∃ s ∈ [wStore], (wEmpsRun.1.headD default).STORE_ID = s.STORE_ID) ∧
    (∃ e ∈ wEmpsRun.1, (wC2Run.1.headD default).EMPLOYEE_ID = e.EMPLOYEE_ID ∧
      e.STORE_ID = (wC2Run.1.headD default).STORE_ID) := by
  have h := employee_store_referential_integrity 0 [wStore] 1 wEmpsDraws
    wEmpsRun.1 wEmpsRun.2 rfl wEmpsDraws_valid [wCust] [wProd] 1 [wOrderDraw]
    wC2Run.1 wC2Run.2 rfl wOrderDraw_validP
  exact ⟨h.1 (wEmpsRun.1.headD default) (List.mem_cons_self _ _),
    h.2 (wC2Run.1.headD default) (List.mem_cons_self _ _)⟩

/-! ### C3 -/

/-- An employee assigned to a store other than store 1, so that store 1 has
zero employees. -/
def wBadEmp : Employee := { wEmp with STORE_ID := 2 }

/-- C3 counterexample: with one store and one employee assigned to a
different store, `generate_orders` fails with the unhandled empty-selection
condition (modelled `none`): the generator does NOT guard the
empty-candidate case. -/
theorem generate_orders_empty_selection_counterexample :
    generateOrders 0 [wCust] [wStore] [wBadEmp] [wProd] 1 [wOrderDraw] = none := rfl

/-- C3 amended: `generate_orders` contains no guard; it fails with an
empty-selection condition whenever the drawn store for some order has no
employees. It succeeds exactly when customers and stores are non-empty and
every drawn store has at least one employee among the provided employees. -/
theorem generate_orders_succeeds_of_nonempty_candidates
    (today : ℤ) (customers : List Customer) (stores : List Store)
    (employees : List Employee) (products : List Product) (num : ℕ)
    (draws : List OrderDraws)
    (hc : customers ≠ []) (hs : stores ≠ [])
    (hg : ∀ j < num, employees.filter
      (fun e => e.STORE_ID == (draws.getD j default).store.STORE_ID) ≠ []) :
    ∃ res, generateOrders today customers stores employees products num draws
      = some res := by
  have key : ∀ is : List ℕ, (∀ j ∈ is, employees.filter
      (fun e => e.STORE_ID == (draws.getD j default).store.STORE_ID) ≠ []) →
      ∃ l, genOrdersAux today customers stores employees draws is = some l := by
    intro is
    induction is with
    | nil => intro _; exact ⟨[], rfl⟩
    | cons j rest ih =>
      intro hall
      obtain ⟨l, hl⟩ := ih (fun j' hj' => hall j' (List.mem_cons_of_mem _ hj'))
      have hmk : mkOrder today customers stores employees (j + 1) (draws.getD j default)
          = some (mkOrderCore today (j + 1) (draws.getD j default)) := by
        unfold mkOrder
        rw [if_neg (by rintro (hc' | hs') <;> [exact hc hc'; exact hs hs']),
          if_neg (hall j (List.mem_cons_self _ _))]
      refine ⟨mkOrderCore today (j + 1) (draws.getD j default) :: l, ?_⟩
      unfold genOrdersAux
      rw [hmk, hl]
  obtain ⟨l, hl⟩ := key (List.range num)
    (fun j hj => hg j (List.mem_range.mp hj))
  exact ⟨(l.map Prod.fst, (l.map Prod.snd).flatten), by
    unfold generateOrders; rw [hl]; rfl⟩

/-- Witness for the C3 amended theorem: the guarded configuration succeeds. -/
theorem generate_orders_succeeds_of_nonempty_candidates_witness :
    ∃ res, generateOrders 0 [wCust] [wStore] [wEmp] [wProd] 1 [wOrderDraw]
      = some res :=
  generate_orders_succeeds_of_nonempty_candidates 0 [wCust] [wStore] [wEmp] [wProd]
    1 [wOrderDraw] (by decide) (by decide)
    (by intro j hj; interval_cases j; decide)

/-! ### C5 -/

/-- C5 counterexample: a requested count of zero does not fail fast — the
generator silently returns the empty list. -/
theorem generate_customers_zero_count_silent :
    generateCustomers 0 0 [] = [] := rfl

/-- C5 amended: a non-positive requested count produces a silently empty
result (no failure at all), while invoking `generate_employees` on an empty
stores table with a positive count fails with an unhandled empty-selection
condition (modelled `none`) before any employee is produced. -/
theorem nonpositive_count_and_empty_stores_behavior
    (today : ℤ) (cdraws : List CustomerDraws) (num : ℕ) (edraws : EmployeesDraws)
    (hnum : 1 ≤ num) :
    generateCustomers today 0 cdraws = [] ∧
    generateEmployees today [] num edraws = none := by
  constructor
  · rfl
  · unfold generateEmployees
    rw [if_pos ⟨by omega, rfl⟩]

/-- Witness for the C5 amended theorem at count 1. -/
theorem nonpositive_count_and_empty_stores_behavior_witness :
    generateCustomers 0 0 [] = [] ∧ generateEmployees 0 [] 1 wEmpsDraws = none :=
  nonpositive_count_and_empty_stores_behavior 0 [] 1 wEmpsDraws (by decide)

/-! ### C7 -/

lemma generateCustomers_ids (today : ℤ) (num : ℕ) (draws : List CustomerDraws) :
    (generateCustomers today num draws).map (fun c => c.CUSTOMER_ID)
      = List.range' 1 num := by
  unfold generateCustomers
  rw [List.map_map, List.range'_eq_map_range]
  exact List.map_congr_left (fun j _ => by simp [mkCustomer]; omega)

lemma addrBlock_ids (c : Customer) (d : AddressDraws) (start : ℕ) :
    (addrBlock c d start).map (fun a => a.ADDRESS_ID)
      = List.range' start d.numAddresses := by
  unfold addrBlock
  rw [List.map_map, List.range'_eq_map_range]
  exact List.map_congr_left (fun i _ => rfl)

lemma addrBlock_length (c : Customer) (d : AddressDraws) (start : ℕ) :
    (addrBlock c d start).length = d.numAddresses := by
  unfold addrBlock
  rw [List.length_map, List.length_range]

lemma genAddrAux_ids :
    ∀ (cs : List Customer) (ds : List AddressDraws) (start : ℕ),
      (genAddrAux cs ds start).map (fun a => a.ADDRESS_ID)
        = List.range' start (genAddrAux cs ds start).length := by
  intro cs
  induction cs with
  | nil => intro ds start; rfl
  | cons c rest ih =>
    intro ds start
    unfold genAddrAux
    rw [List.map_append, List.length_append, addrBlock_ids, addrBlock_length, ih]
    have hap := List.range'_append start (ds.headD default).numAddresses
      (genAddrAux rest ds.tail (start + (ds.headD default).numAddresses)).length 1
    rw [one_mul] at hap
    rw [hap, Nat.add_comm]

/-- C7: for a positive count `N`, `generate_customers` returns exactly `N`
customers whose `CUSTOMER_ID`s are exactly `1, 2, ..., N` (unique, dense, no
reuse), and `generate_customer_addresses` assigns `ADDRESS_ID`s that are the
dense integers starting at 1. -/
theorem customer_and_address_ids_dense
    (today : ℤ) (num : ℕ) (cdraws : List CustomerDraws)
    (adraws : List AddressDraws) (_hnum : 0 < num) :
    (generateCustomers today num cdraws).length = num ∧
    (generateCustomers today num cdraws).map (fun c => c.CUSTOMER_ID)
      = List.range' 1 num ∧
    (generateCustomerAddresses (generateCustomers today num cdraws) adraws).map
        (fun a => a.ADDRESS_ID)
      = List.range' 1 (generateCustomerAddresses
          (generateCustomers today num cdraws) adraws).length := by
  refine ⟨?_, generateCustomers_ids today num cdraws, genAddrAux_ids _ _ _⟩
  unfold generateCustomers
  rw [List.length_map, List.length_range]

/-- Witness for C7 at `N = 2`. -/
theorem customer_and_address_ids_dense_witness :
    (generateCustomers 0 2 [wCustDraw]).length = 2 ∧
    (generateCustomers 0 2 [wCustDraw]).map (fun c => c.CUSTOMER_ID)
      = List.range' 1 2 ∧
    (generateCustomerAddresses (generateCustomers 0 2 [wCustDraw]) [wAddrDraw]).map
        (fun a => a.ADDRESS_ID)
      = List.range' 1 (generateCustomerAddresses
          (generateCustomers 0 2 [wCustDraw]) [wAddrDraw]).length :=
  customer_and_address_ids_dense 0 2 [wCustDraw] [wAddrDraw] (by decide)

/-! ### C9 support: which addresses belong to which customer -/

lemma list_getD_zero_headD {α : Type} (l : List α) (dflt : α) :
    l.getD 0 dflt = l.headD dflt := by cases l <;> rfl

lemma list_tail_getD {α : Type} (l : List α) (j : ℕ) (dflt : α) :
    l.tail.getD j dflt = l.getD (j + 1) dflt := by cases l <;> rfl

lemma addrBlock_cid {c : Customer} {d : AddressDraws} {start : ℕ} {a : Address}
    (ha : a ∈ addrBlock c d start) : a.CUSTOMER_ID = c.CUSTOMER_ID := by
  obtain ⟨i, -, hi⟩ := List.mem_map.mp ha
  rw [← hi]
  rfl

lemma genAddrAux_cid :
    ∀ {cs : List Customer} {ds : List AddressDraws} {start : ℕ} {a : Address},
      a ∈ genAddrAux cs ds start →
      a.CUSTOMER_ID ∈ cs.map (fun c => c.CUSTOMER_ID) := by
  intro cs
  induction cs with
  | nil => intro ds start a ha; exact absurd ha (by simp [genAddrAux])
  | cons c0 rest ih =>
    intro ds start a ha
    unfold genAddrAux at ha
    rcases List.mem_append.mp ha with hb | hr
    · rw [List.map_cons, addrBlock_cid hb]
      exact List.mem_cons_self _ _
    · exact List.mem_cons_of_mem _ (ih hr)

/-- With pairwise-distinct customer ids, the addresses filtered to one
customer are exactly that customer's emitted block. -/
lemma genAddrAux_filter_eq :
    ∀ (cs : List Customer) (ds : List AddressDraws) (start : ℕ) (c : Customer),
      c ∈ cs → (cs.map (fun x => x.CUSTOMER_ID)).Nodup →
      ∃ j < cs.length, ∃ s,
        (genAddrAux cs ds start).filter (fun a => a.CUSTOMER_ID == c.CUSTOMER_ID)
          = addrBlock c (ds.getD j default) s := by
  intro cs
  induction cs with
  | nil => intro ds start c hc _; exact absurd hc (by simp)
  | cons c0 rest ih =>
    intro ds start c hc hnd
    rw [List.map_cons, List.nodup_cons] at hnd
    unfold genAddrAux
    rw [List.filter_append]
    rcases List.mem_cons.mp hc with hceq | hcrest
    · subst hceq
      have hb : (addrBlock c (ds.headD default) start).filter
          (fun a => a.CUSTOMER_ID == c.CUSTOMER_ID)
          = addrBlock c (ds.headD default) start :=
        List.filter_eq_self.mpr (fun a ha => by
          rw [addrBlock_cid ha]; exact beq_self_eq_true _)
      have hr : (genAddrAux rest ds.tail (start + (ds.headD default).numAddresses)).filter
          (fun a => a.CUSTOMER_ID == c.CUSTOMER_ID) = [] := by
        rw [List.filter_eq_nil_iff]
        intro a ha
        have hmem := genAddrAux_cid ha
        intro hbeq
        rw [beq_iff_eq] at hbeq
        rw [hbeq] at hmem
        exact hnd.1 hmem
      rw [hb, hr, List.append_nil]
      exact ⟨0, by simp, start, by rw [list_getD_zero_headD]⟩
    · have hb0 : (addrBlock c0 (ds.headD default) start).filter
          (fun a => a.CUSTOMER_ID == c.CUSTOMER_ID) = [] := by
        rw [List.filter_eq_nil_iff]
        intro a ha
        have hane : c.CUSTOMER_ID ≠ c0.CUSTOMER_ID := by
          intro heq
          exact hnd.1 (heq ▸ List.mem_map_of_mem (fun x => x.CUSTOMER_ID) hcrest)
        rw [addrBlock_cid ha]
        intro hbeq
        rw [beq_iff_eq] at hbeq
        exact hane hbeq.symm
      obtain ⟨j, hj, s, hrec⟩ :=
        ih ds.tail (start + (ds.headD default).numAddresses) c hcrest hnd.2
      rw [hb0, hrec, List.nil_append]
      exact ⟨j + 1, by simpa using hj, s, by rw [list_tail_getD]⟩

lemma addrBlock_default_facts (c : Customer) (d : AddressDraws) (start : ℕ)
    (hnum : d.numAddresses = 1 ∨ d.numAddresses = 2) :
    ((addrBlock c d start).length = 1 ∨ (addrBlock c d start).length = 2) ∧
    (addrBlock c d start).countP (fun a => a.IS_DEFAULT) = 1 ∧
    (∀ a0, (addrBlock c d start).head? = some a0 → a0.IS_DEFAULT = true) := by
  have hcp : ∀ n : ℕ, ((List.range n).map
      (fun i => mkAddress (start + i) c i (d.items.getD i default))).countP
        (fun a => a.IS_DEFAULT)
      = (List.range n).countP (fun i => i == 0) := by
    intro n
    rw [List.countP_map]
    rfl
  rcases hnum with h | h
  · refine ⟨Or.inl (by rw [addrBlock_length, h]), ?_, ?_⟩
    · unfold addrBlock
      rw [h, hcp]
      rfl
    · intro a0 ha0
      unfold addrBlock at ha0
      rw [h] at ha0
      simp only [List.range_succ, List.range_zero, List.nil_append, List.map_cons,
        List.map_nil, List.head?_cons, Option.some.injEq] at ha0
      rw [← ha0]
      rfl
  · refine ⟨Or.inr (by rw [addrBlock_length, h]), ?_, ?_⟩
    · unfold addrBlock
      rw [h, hcp]
      rfl
    · intro a0 ha0
      unfold addrBlock at ha0
      rw [h] at ha0
      simp only [List.range_succ, List.range_zero, List.nil_append, List.map_cons,
        List.map_append, List.map_nil, List.head?_cons, List.head?_append] at ha0
      have ha0' : some (mkAddress (start + 0) c 0 (d.items.getD 0 default)) = some a0 := ha0
      injection ha0' with ha0''
      rw [← ha0'']
      rfl

/-! ### C9 -/

/-- C9: every generated customer has a birth year between 1944 and 2006, and
`generate_customer_addresses` emits 1 or 2 addresses for each customer, of
which exactly one — the first — is marked default. -/
theorem customer_birth_year_and_default_address
    (today : ℤ) (num : ℕ) (cdraws : List CustomerDraws) (adraws : List AddressDraws)
    (hvc : ∀ j < num, CustomerDrawsValid (cdraws.getD j default))
    (hva : ∀ j < num, (adraws.getD j default).numAddresses = 1 ∨
      (adraws.getD j default).numAddresses = 2) :
    ∀ c ∈ generateCustomers today num cdraws,
      (1944 ≤ c.DATE_OF_BIRTH.1 ∧ c.DATE_OF_BIRTH.1 ≤ 2006) ∧
      ((((generateCustomerAddresses (generateCustomers today num cdraws) adraws).filter
          (fun a => a.CUSTOMER_ID == c.CUSTOMER_ID)).length = 1 ∨
        ((generateCustomerAddresses (generateCustomers today num cdraws) adraws).filter
          (fun a => a.CUSTOMER_ID == c.CUSTOMER_ID)).length = 2) ∧
       ((generateCustomerAddresses (generateCustomers today num cdraws) adraws).filter
          (fun a => a.CUSTOMER_ID == c.CUSTOMER_ID)).countP
            (fun a => a.IS_DEFAULT) = 1 ∧
       (∀ a0, ((generateCustomerAddresses (generateCustomers today num cdraws)
            adraws).filter (fun a => a.CUSTOMER_ID == c.CUSTOMER_ID)).head?
          = some a0 → a0.IS_DEFAULT = true)) := by
  intro c hc
  constructor
  · obtain ⟨j, hjr, hceq⟩ := List.mem_map.mp hc
    have hj := List.mem_range.mp hjr
    have hbirth : c.DATE_OF_BIRTH.1 = (cdraws.getD j default).birthYear := by
      rw [← hceq]; rfl
    obtain ⟨-, -, -, -, hy1, hy2, -⟩ := hvc j hj
    rw [hbirth]
    exact ⟨hy1, hy2⟩
  · have hnd : ((generateCustomers today num cdraws).map
        (fun x => x.CUSTOMER_ID)).Nodup := by
      rw [generateCustomers_ids]
      exact List.nodup_range' _ _
    obtain ⟨j, hj, s, heq⟩ := genAddrAux_filter_eq
      (generateCustomers today num cdraws) adraws 1 c hc hnd
    have hlen : (generateCustomers today num cdraws).length = num := by
      unfold generateCustomers
      rw [List.length_map, List.length_range]
    have hjnum : j < num := hlen ▸ hj
    unfold generateCustomerAddresses
    rw [heq]
    exact addrBlock_default_facts c (adraws.getD j default) s (hva j hjnum)

def w9c : Customer := (generateCustomers 0 1 [wCustDraw]).headD default

def w9addrs : List Address :=
  (generateCustomerAddresses (generateCustomers 0 1 [wCustDraw]) [wAddrDraw]).filter
    (fun a => a.CUSTOMER_ID == w9c.CUSTOMER_ID)

/-- Witness for C9 on a concrete one-customer run. -/
theorem customer_birth_year_and_default_address_witness :
    (1944 ≤ w9c.DATE_OF_BIRTH.1 ∧ w9c.DATE_OF_BIRTH.1 ≤ 2006) ∧
    ((w9addrs.length = 1 ∨ w9addrs.length = 2) ∧
     w9addrs.countP (fun a => a.IS_DEFAULT) = 1 ∧
     (∀ a0, w9addrs.head? = some a0 → a0.IS_DEFAULT = true)) :=
  customer_birth_year_and_default_address 0 1 [wCustDraw] [wAddrDraw]
    (by decide) (by decide) w9c (List.mem_cons_self _ _)

/-! ### C8 -/

/-- C8: every generated product satisfies `UNIT_COST < UNIT_PRICE` and
`UNIT_PRICE ≤ MSRP`; in fact this holds for ALL draws in the documented
sampling ranges (cost at 60–80% of the integer base price, MSRP at 110–130%
of it), not merely with high probability. -/
theorem product_price_ordering
    (num : ℕ) (draws : List ProductDraws)
    (hv : ∀ j < num, ProductDrawsValid (draws.getD j default)) :
    ∀ p ∈ generateProducts num draws,
      p.UNIT_COST < p.UNIT_PRICE ∧ p.UNIT_PRICE ≤ p.MSRP := by
  intro p hp
  obtain ⟨j, hjr, hpeq⟩ := List.mem_map.mp hp
  have hj := List.mem_range.mp hjr
  obtain ⟨hb1, -, hc1, hc2, hm1, -, -⟩ := hv j hj
  have hcost : p.UNIT_COST
      = round2 (((draws.getD j default).base : ℚ) * (draws.getD j default).costFrac) := by
    rw [← hpeq]; rfl
  have hprice : p.UNIT_PRICE = round2 (((draws.getD j default).base : ℚ)) := by
    rw [← hpeq]; rfl
  have hmsrp : p.MSRP
      = round2 (((draws.getD j default).base : ℚ) * (draws.getD j default).msrpFrac) := by
    rw [← hpeq]; rfl
  have hb : (500 : ℚ) ≤ ((draws.getD j default).base : ℚ) := by exact_mod_cast hb1
  have hprice_eq : round2 (((draws.getD j default).base : ℚ))
      = ((draws.getD j default).base : ℚ) :=
    round2_eq_self_of_cents _ (100 * ((draws.getD j default).base : ℤ))
      (by push_cast; ring)
  have heighty : round2 (((draws.getD j default).base : ℚ) * (4 / 5))
      = ((draws.getD j default).base : ℚ) * (4 / 5) :=
    round2_eq_self_of_cents _ (80 * ((draws.getD j default).base : ℤ))
      (by push_cast; ring)
  constructor
  · rw [hcost, hprice, hprice_eq]
    have h1 : round2 (((draws.getD j default).base : ℚ) * (draws.getD j default).costFrac)
        ≤ round2 (((draws.getD j default).base : ℚ) * (4 / 5)) :=
      round2_mono (by nlinarith)
    rw [heighty] at h1
    linarith
  · rw [hprice, hmsrp, hprice_eq]
    have h2 : round2 (((draws.getD j default).base : ℚ))
        ≤ round2 (((draws.getD j default).base : ℚ) * (draws.getD j default).msrpFrac) :=
      round2_mono (by nlinarith)
    rw [hprice_eq] at h2
    exact h2

lemma wProdDraw_valid : ∀ j < 1, ProductDrawsValid ([wProdDraw].getD j default) := by
  intro j hj
  interval_cases j
  rw [show [wProdDraw].getD 0 default = wProdDraw from rfl]
  refine ⟨by decide, by decide, by norm_num [wProdDraw], by norm_num [wProdDraw],
    by norm_num [wProdDraw], by norm_num [wProdDraw], ?_,
    by decide, by decide, by decide, by decide, by decide, by decide,
    by decide, by decide, by decide, by decide⟩
  rw [if_neg (by decide)]
  constructor <;> norm_num [wProdDraw]

/-- Witness for C8 on a concrete one-product run. -/
theorem product_price_ordering_witness :
    ((generateProducts 1 [wProdDraw]).headD default).UNIT_COST
      < ((generateProducts 1 [wProdDraw]).headD default).UNIT_PRICE ∧
    ((generateProducts 1 [wProdDraw]).headD default).UNIT_PRICE
      ≤ ((generateProducts 1 [wProdDraw]).headD default).MSRP :=
  product_price_ordering 1 [wProdDraw] wProdDraw_valid
    ((generateProducts 1 [wProdDraw]).headD default) (List.mem_cons_self _ _)

/-! ### C4 -/

/-- C4 amended: every order line has `0 ≤ DISCOUNT_PERCENT ≤ 20`, and its
`TOTAL_LINE_AMOUNT` equals `round(UNIT_PRICE * QUANTITY_ORDERED * (1 - dq), 2)`
where `dq` is the exact drawn discount fraction — of which the stored
`DISCOUNT_PERCENT` is the rounded percentage `round(dq * 100, 2)`.
(Recomputing the line total from the stored rounded percent can differ.) -/
theorem order_line_discount_and_line_total
    (today : ℤ) (customers : List Customer) (stores : List Store)
    (employees : List Employee) (products : List Product) (num : ℕ)
    (draws : List OrderDraws) (orders : List Order) (dets : List OrderDetail)
    (h : generateOrders today customers stores employees products num draws
      = some (orders, dets))
    (hov : ∀ j < num, OrderDrawsValid customers stores employees products
      (draws.getD j default)) :
    ∀ det ∈ dets,
      (0 ≤ det.DISCOUNT_PERCENT ∧ det.DISCOUNT_PERCENT ≤ 20) ∧
      ∃ dq : ℚ, 0 ≤ dq ∧ dq ≤ 1 / 5 ∧ det.DISCOUNT_PERCENT = round2 (dq * 100) ∧
        det.TOTAL_LINE_AMOUNT
          = round2 (det.UNIT_PRICE * (det.QUANTITY_ORDERED : ℚ) * (1 - dq)) := by
  intro det hdet
  obtain ⟨j, hj, it, hit, hdeq⟩ := generateOrders_details_mem h hdet
  obtain ⟨-, -, -, -, -, -, -, -, -, -, -, -, hitems, -⟩ := hov j hj
  obtain ⟨-, -, -, hd0, hd15⟩ := hitems it hit
  subst hdeq
  have hdp : (mkDetail (j + 1) it).DISCOUNT_PERCENT = round2 (it.discount * 100) := rfl
  have hzero : round2 0 = 0 := round2_eq_self_of_cents 0 0 (by norm_num)
  have htwenty : round2 20 = 20 := round2_eq_self_of_cents 20 2000 (by norm_num)
  refine ⟨⟨?_, ?_⟩, it.discount, hd0, hd15, rfl, rfl⟩
  · rw [hdp, ← hzero]
    exact round2_mono (by nlinarith)
  · rw [hdp, ← htwenty]
    exact round2_mono (by nlinarith)

/-! C4 counterexample: a line with unit price 50000, quantity 5 and drawn
discount fraction 0.123456; the stored percent is rounded to 12.35, and the
line total recomputed from the stored percent (219125) differs from the
stored line total (219136). -/

def wProdDraw50 : ProductDraws := { wProdDraw with base := 50000 }

def wProd50 : Product := mkProduct 1 wProdDraw50

def wC4Draw : OrderDraws :=
  { wOrderDraw with
    items := [{ product := wProd50, quantity := 5, discount := 1929 / 15625 }] }

def wC4Run : List Order × List OrderDetail :=
  (generateOrders 0 [wCust] [wStore] [wEmp] [wProd50] 1 [wC4Draw]).getD ([], [])

/-- C4 counterexample: the stored `TOTAL_LINE_AMOUNT` of this generated order
line does NOT equal the total recomputed from the stored (rounded)
`DISCOUNT_PERCENT`. -/
theorem order_line_total_differs_from_stored_percent :
    (wC4Run.2.headD default).TOTAL_LINE_AMOUNT ≠
      round2 ((wC4Run.2.headD default).UNIT_PRICE
        * ((wC4Run.2.headD default).QUANTITY_ORDERED : ℚ)
        * (1 - (wC4Run.2.headD default).DISCOUNT_PERCENT / 100)) := by
  show round2 (wProd50.UNIT_PRICE * ((5 : ℕ) : ℚ) * (1 - 1929 / 15625))
      ≠ round2 (wProd50.UNIT_PRICE * ((5 : ℕ) : ℚ)
        * (1 - round2 ((1929 / 15625 : ℚ) * 100) / 100))
  have hup : wProd50.UNIT_PRICE = 50000 := by
    show round2 (((50000 : ℕ) : ℚ)) = 50000
    unfold round2
    rw [round_eq]
    norm_num
  have hfive : ((5 : ℕ) : ℚ) = 5 := by norm_num
  rw [hup, hfive]
  have e2 : round2 ((1929 / 15625 : ℚ) * 100) = 247 / 20 := by
    unfold round2
    rw [round_eq]
    norm_num
  rw [e2]
  have e3 : round2 ((50000 : ℚ) * 5 * (1 - 1929 / 15625)) = 219136 := by
    unfold round2
    rw [round_eq]
    norm_num
  have e4 : round2 ((50000 : ℚ) * 5 * (1 - 247 / 20 / 100)) = 219125 := by
    unfold round2
    rw [round_eq]
    norm_num
  rw [e3, e4]
  norm_num

lemma wOrderDraw_valid :
    ∀ j < 1, OrderDrawsValid [wCust] [wStore] [wEmp] [wProd] ([wOrderDraw].getD j default) := by
  intro j hj
  interval_cases j
  rw [show [wOrderDraw].getD 0 default = wOrderDraw from rfl]
  refine ⟨List.mem_cons_self _ _, List.mem_cons_self _ _, List.mem_cons_self _ _,
    by decide, by decide, by decide, by decide, by decide, by decide,
    by decide, rfl, by simp [wOrderDraw], ?_, by decide⟩
  intro it hit
  simp only [wOrderDraw, List.mem_singleton] at hit
  subst hit
  exact ⟨List.mem_cons_self _ _, by decide, by decide, by norm_num, by norm_num⟩

/-- Witness for the C4 amended theorem on a concrete one-line run. -/
theorem order_line_discount_and_line_total_witness :
    (0 ≤ (wOrdersRun.2.headD default).DISCOUNT_PERCENT ∧
      (wOrdersRun.2.headD default).DISCOUNT_PERCENT ≤ 20) ∧
    ∃ dq : ℚ, 0 ≤ dq ∧ dq ≤ 1 / 5 ∧
      (wOrdersRun.2.headD default).DISCOUNT_PERCENT = round2 (dq * 100) ∧
      (wOrdersRun.2.headD default).TOTAL_LINE_AMOUNT
        = round2 ((wOrdersRun.2.headD default).UNIT_PRICE
          * ((wOrdersRun.2.headD default).QUANTITY_ORDERED : ℚ) * (1 - dq)) :=
  order_line_discount_and_line_total 0 [wCust] [wStore] [wEmp] [wProd] 1
    [wOrderDraw] wOrdersRun.1 wOrdersRun.2 rfl wOrderDraw_valid
    (wOrdersRun.2.headD default) (List.mem_cons_self _ _)

/-! ### C6 / C10 support: inverting `generate_all_data` and the sales view -/

lemma generateAllData_eq_some {today : ℤ} {nc np ns ne no : ℕ} {draws : AllDraws}
    {data : AllData} (h : generateAllData today nc np ns ne no draws = some data) :
    ∃ emps stores2 orders dets,
      generateEmployees today (generateStores today ns draws.stores) ne draws.employees
        = some (emps, stores2) ∧
      generateOrders today (generateCustomers today nc draws.customers) stores2 emps
        (generateProducts np draws.products) no draws.orders = some (orders, dets) ∧
      data.orders = orders ∧ data.order_details = dets ∧
      data.sales_data = salesRows orders dets
        (generateCustomers today nc draws.customers)
        (generateProducts np draws.products) stores2 emps := by
  unfold generateAllData at h
  dsimp only at h
  rcases hE : generateEmployees today (generateStores today ns draws.stores) ne
      draws.employees with - | ⟨emps, stores2⟩
  · rw [hE] at h; exact absurd h (by simp)
  · rw [hE] at h
    dsimp only at h
    rcases hO : generateOrders today (generateCustomers today nc draws.customers)
        stores2 emps (generateProducts np draws.products) no draws.orders
        with - | ⟨orders, dets⟩
    · rw [hO] at h; exact absurd h (by simp)
    · rw [hO] at h
      dsimp only at h
      injection h with h
      exact ⟨emps, stores2, orders, dets, rfl, hO, by rw [← h], by rw [← h], by rw [← h]⟩

lemma salesRowOf_eq_some {ods : List OrderDetail} {cs : List Customer}
    {ps : List Product} {ss : List Store} {es : List Employee} {order : Order}
    {r : SalesRow} (h : salesRowOf ods cs ps ss es order = some r) :
    ∃ od, ods.find? (fun x => x.ORDER_ID == order.ORDER_ID) = some od ∧
      r.ORDER_ID = order.ORDER_ID ∧ r.PRODUCT_ID = od.PRODUCT_ID ∧
      r.QUANTITY_ORDERED = od.QUANTITY_ORDERED ∧ r.UNIT_PRICE = od.UNIT_PRICE ∧
      r.DISCOUNT_PERCENT = od.DISCOUNT_PERCENT ∧
      r.TOTAL_AMOUNT = od.TOTAL_LINE_AMOUNT := by
  unfold salesRowOf at h
  rcases hfind : ods.find? (fun x => x.ORDER_ID == order.ORDER_ID) with - | od
  · rw [hfind] at h; exact absurd h (by simp)
  · rw [hfind] at h
    dsimp only at h
    by_cases hg : ((cs.find? (fun c => c.CUSTOMER_ID == order.CUSTOMER_ID)).isSome
        && (ps.find? (fun p => p.PRODUCT_ID == od.PRODUCT_ID)).isSome
        && (ss.find? (fun s => s.STORE_ID == order.STORE_ID)).isSome
        && (es.find? (fun e => e.EMPLOYEE_ID == order.EMPLOYEE_ID)).isSome) = true
    · rw [if_pos hg] at h
      injection h with h
      exact ⟨od, hfind, by rw [← h], by rw [← h], by rw [← h], by rw [← h],
        by rw [← h], by rw [← h]⟩
    · rw [if_neg hg] at h
      exact absurd h (by simp)

lemma filter_filterMap_length_le {α β : Type} (g : α → Option β) (p : β → Bool)
    (q : α → Bool) (hpq : ∀ a b, g a = some b → p b = true → q a = true) :
    ∀ l : List α, ((l.filterMap g).filter p).length ≤ (l.filter q).length := by
  intro l
  induction l with
  | nil => simp
  | cons a rest ih =>
    rw [List.filterMap_cons, List.filter_cons]
    cases hg : g a with
    | none =>
      by_cases hq : q a = true
      · rw [if_pos hq]
        exact Nat.le_succ_of_le ih
      · rw [if_neg hq]
        exact ih
    | some b =>
      by_cases hpb : p b = true
      · rw [if_pos (hpq a b hg hpb), List.filter_cons, if_pos hpb]
        exact Nat.succ_le_succ ih
      · rw [List.filter_cons, if_neg hpb]
        by_cases hq : q a = true
        · rw [if_pos hq]
          exact Nat.le_succ_of_le ih
        · rw [if_neg hq]
          exact ih

lemma filter_key_length_le_one {l : List Order}
    (hnd : (l.map (fun o => o.ORDER_ID)).Nodup) (K : ℕ) :
    (l.filter (fun o => o.ORDER_ID == K)).length ≤ 1 := by
  induction l with
  | nil => simp
  | cons o rest ih =>
    rw [List.map_cons, List.nodup_cons] at hnd
    rw [List.filter_cons]
    by_cases hK : (o.ORDER_ID == K) = true
    · rw [if_pos hK]
      have hrest : rest.filter (fun x => x.ORDER_ID == K) = [] := by
        rw [List.filter_eq_nil_iff]
        intro x hx hbeq
        rw [beq_iff_eq] at hK hbeq
        exact hnd.1 (by
          rw [hK, ← hbeq]
          exact List.mem_map_of_mem (fun o => o.ORDER_ID) hx)
      rw [hrest]
      exact Nat.le_refl 1
    · rw [if_neg hK]
      exact ih hnd.2

/-- The orders produced by `generate_orders` carry pairwise-distinct ids. -/
lemma generateOrders_ids_nodup {today : ℤ} {cs : List Customer} {ss : List Store}
    {es : List Employee} {ps : List Product} {num : ℕ} {draws : List OrderDraws}
    {orders : List Order} {dets : List OrderDetail}
    (h : generateOrders today cs ss es ps num draws = some (orders, dets)) :
    (orders.map (fun o => o.ORDER_ID)).Nodup := by
  obtain ⟨l, hg, horders, -⟩ := generateOrders_eq_some h
  subst horders
  rw [List.map_map]
  have hcomp : ((fun o => o.ORDER_ID) ∘ Prod.fst : Order × List OrderDetail → ℕ)
      = fun p => p.1.ORDER_ID := rfl
  rw [hcomp, genOrdersAux_ids hg]
  exact (List.nodup_range num).map (fun a b hab => by omega)

/-! ### C6 -/

/-- C6: the flattened `sales_data` view built by `generate_all_data`
contains at most one row per order, and every row's product fields come from
the FIRST order line whose `ORDER_ID` matches that order (additional lines
of the same order are dropped). -/
theorem sales_view_uses_first_line_only
    (today : ℤ) (nc np ns ne no : ℕ) (draws : AllDraws) (data : AllData)
    (h : generateAllData today nc np ns ne no draws = some data) :
    ∀ o ∈ data.orders,
      (data.sales_data.filter (fun r => r.ORDER_ID == o.ORDER_ID)).length ≤ 1 ∧
      ∀ r ∈ data.sales_data, r.ORDER_ID = o.ORDER_ID →
        ∃ od, data.order_details.find? (fun x => x.ORDER_ID == o.ORDER_ID) = some od ∧
          r.PRODUCT_ID = od.PRODUCT_ID ∧ r.QUANTITY_ORDERED = od.QUANTITY_ORDERED ∧
          r.UNIT_PRICE = od.UNIT_PRICE ∧ r.DISCOUNT_PERCENT = od.DISCOUNT_PERCENT ∧
          r.TOTAL_AMOUNT = od.TOTAL_LINE_AMOUNT := by
  obtain ⟨emps, stores2, orders, dets, -, hO, hord, hdet, hsales⟩ :=
    generateAllData_eq_some h
  have hnd := generateOrders_ids_nodup hO
  intro o ho
  rw [hord] at ho
  constructor
  · rw [hsales]
    unfold salesRows
    have hle := filter_filterMap_length_le
      (salesRowOf dets (generateCustomers today nc draws.customers)
        (generateProducts np draws.products) stores2 emps)
      (fun r => r.ORDER_ID == o.ORDER_ID) (fun o' => o'.ORDER_ID == o.ORDER_ID)
      (fun o' r hg hp => by
        obtain ⟨od, -, hrid, -⟩ := salesRowOf_eq_some hg
        show (o'.ORDER_ID == o.ORDER_ID) = true
        have hp' : (r.ORDER_ID == o.ORDER_ID) = true := hp
        rw [← hrid]
        exact hp') orders
    exact Nat.le_trans hle (filter_key_length_le_one hnd o.ORDER_ID)
  · intro r hr hrid
    rw [hsales] at hr
    obtain ⟨o', ho', hrow⟩ := List.mem_filterMap.mp hr
    obtain ⟨od, hfind, hrid', hfields⟩ := salesRowOf_eq_some hrow
    refine ⟨od, ?_, hfields⟩
    have hoo : o'.ORDER_ID = o.ORDER_ID := by rw [← hrid', hrid]
    have hpred : (fun x : OrderDetail => x.ORDER_ID == o.ORDER_ID)
        = (fun x => x.ORDER_ID == o'.ORDER_ID) := by rw [hoo]
    rw [hdet, hpred]
    exact hfind

/-! Full-pipeline fixture for the C6 and C10 witnesses. -/

def wAllDraws : AllDraws :=
  { customers := [wCustDraw], addresses := [wAddrDraw], products := [wProdDraw],
    stores := [wStoreDraw], employees := wEmpsDraws, orders := [wOrderDraw] }

def wAllRun : AllData := (generateAllData 0 1 1 1 1 1 wAllDraws).getD default

/-- Witness for C6 on a concrete full `generate_all_data` run. -/
theorem sales_view_uses_first_line_only_witness :
    (wAllRun.sales_data.filter
      (fun r => r.ORDER_ID == (wAllRun.orders.headD default).ORDER_ID)).length ≤ 1 ∧
    ∃ od, wAllRun.order_details.find?
        (fun x => x.ORDER_ID == (wAllRun.orders.headD default).ORDER_ID) = some od ∧
      (wAllRun.sales_data.headD default).PRODUCT_ID = od.PRODUCT_ID ∧
      (wAllRun.sales_data.headD default).QUANTITY_ORDERED = od.QUANTITY_ORDERED ∧
      (wAllRun.sales_data.headD default).UNIT_PRICE = od.UNIT_PRICE ∧
      (wAllRun.sales_data.headD default).DISCOUNT_PERCENT = od.DISCOUNT_PERCENT ∧
      (wAllRun.sales_data.headD default).TOTAL_AMOUNT = od.TOTAL_LINE_AMOUNT := by
  have h := sales_view_uses_first_line_only 0 1 1 1 1 1 wAllDraws wAllRun rfl
    (wAllRun.orders.headD default) (List.mem_cons_self _ _)
  exact ⟨h.1, h.2 (wAllRun.sales_data.headD default) (List.mem_cons_self _ _) rfl⟩

/-! ### C10 -/

/-- C10: every order produced by the pipeline has `SHIPPING_ADDRESS_ID = None`
at creation, and no later pass (including `generate_all_data`) back-fills it. -/
theorem shipping_address_never_backfilled
    (today : ℤ) (nc np ns ne no : ℕ) (draws : AllDraws) (data : AllData)
    (h : generateAllData today nc np ns ne no draws = some data) :
    ∀ o ∈ data.orders, o.SHIPPING_ADDRESS_ID = none := by
  obtain ⟨emps, stores2, orders, dets, -, hO, hord, -, -⟩ := generateAllData_eq_some h
  intro o ho
  rw [hord] at ho
  obtain ⟨j, -, hoeq, -⟩ := generateOrders_orders_mem hO ho
  rw [hoeq, mkOrderCore_SHIPADDR]

/-- Witness for C10 on a concrete full `generate_all_data` run. -/
theorem shipping_address_never_backfilled_witness :
    (wAllRun.orders.headD default).SHIPPING_ADDRESS_ID = none :=
  shipping_address_never_backfilled 0 1 1 1 1 1 wAllDraws wAllRun rfl
    (wAllRun.orders.headD default) (List.mem_cons_self _ _)

end PakSales
